import Mathlib

/-!
Verification of the phoneme-driven viseme scheduling engine of the
3D AI Avatar System (avatar.js), against its design specification.

The engine's data tables and pure computations are embedded shallowly:
JS numbers are modelled as exact rationals, JS objects used as string-keyed
maps are modelled as association lists, and the bounded while-loops are
modelled as fuel-bounded structural recursions (the fuel bounds are the same
loop bounds the JS code has).  Asynchronous handler code (stop / onend /
timers) is modelled as explicit state-transition functions over an engine
state record, one per event handler in the source.
-/

set_option maxRecDepth 8000

namespace Avatar

-- ===================================================================
-- § Data model
-- ===================================================================

/-- A timeline keyframe { timeMs, shapeKey, durationMs } (avatar.js:2132-2134). -/
structure VisemeKeyframe where
  timeMs : ℚ
  shapeKey : String
  durationMs : ℚ
deriving Repr, DecidableEq, Inhabited

/-- A word phoneme event { word, phonemes, charStart, charEnd }
(textToPhonemeEvents, avatar.js:1996-2013). -/
structure WordEvent where
  word : String
  phonemes : List String
  charStart : ℕ
  charEnd : ℕ
deriving Repr, DecidableEq, Inhabited

/-- A boundary log entry { wordIdx, charIndex, elapsedMs } (avatar.js:2460). -/
structure BoundaryRecord where
  wordIdx : ℕ
  charIndex : ℕ
  elapsedMs : ℚ
deriving Repr, DecidableEq, Inhabited

/-- First-match association-list lookup, modelling JS own-property access
tbl[k] on the object literals used as maps (prototype-chain hits are not
modelled; every lookup in the claims is on an own key or misses). -/
def lookupStr {α : Type} (tbl : List (String × α)) (k : String) : Option α :=
  (tbl.find? (fun p => p.1 == k)).map (fun p => p.2)

/-- The static word-exception table WORD_EXCEPTIONS (src/avatar.js lines 954-1858),
flattened to an association list. The JS object literal contains a few duplicate
keys; per JS semantics the later entry overrides the earlier one, so the list below
keeps each key once with its final value. -/
def WORD_EXCEPTIONS_0 : List (String × String) := [
  ("the", "DH AH"),
  ("a", "AH"),
  ("an", "AH N"),
  ("and", "AE N D"),
  ("or", "AO R"),
  ("is", "IH Z"),
  ("are", "AA R"),
  ("was", "W AH Z"),
  ("were", "W ER"),
  ("be", "B IY"),
  ("been", "B IH N"),
  ("being", "B IY IH NG"),
  ("have", "HH AE V"),
  ("has", "HH AE Z"),
  ("had", "HH AE D"),
  ("do", "D UW"),
  ("does", "D AH Z"),
  ("did", "D IH D"),
  ("will", "W IH L"),
  ("would", "W UH D"),
  ("shall", "SH AE L"),
  ("should", "SH UH D"),
  ("may", "M EY"),
  ("might", "M AY T"),
  ("must", "M AH S T"),
  ("can", "K AE N"),
  ("could", "K UH D"),
  ("i", "AY"),
  ("im", "AY M"),
  ("ive", "AY V"),
  ("you", "Y UW"),
  ("your", "Y AO R"),
  ("yours", "Y AO R Z"),
  ("he", "HH IY"),
  ("him", "HH IH M"),
  ("his", "HH IH Z"),
  ("she", "SH IY"),
  ("her", "HH ER"),
  ("it", "IH T"),
  ("its", "IH T S"),
  ("we", "W IY"),
  ("us", "AH S"),
  ("our", "AW R"),
  ("they", "DH EY"),
  ("them", "DH EH M"),
  ("their", "DH EH R"),
  ("this", "DH IH S"),
  ("that", "DH AE T"),
  ("these", "DH IY Z"),
  ("those", "DH OW Z"),
  ("what", "W AH T"),
  ("which", "W IH CH"),
  ("who", "HH UW"),
  ("when", "W EH N"),
  ("where", "W EH R"),
  ("why", "W AY"),
  ("how", "HH AW"),
  ("all", "AO L"),
  ("any", "EH N IY"),
  ("some", "S AH M"),
  ("one", "W AH N"),
  ("two", "T UW"),
  ("three", "TH R IY"),
  ("four", "F AO R"),
  ("five", "F AY V"),
  ("six", "S IH K S"),
  ("seven", "S EH V AH N"),
  ("eight", "EY T"),
  ("nine", "N AY N"),
  ("ten", "T EH N"),
  ("to", "T UW"),
  ("too", "T UW"),
  ("from", "F R AH M"),
  ("of", "AH V"),
  ("in", "IH N"),
  ("on", "AA N"),
  ("at", "AE T"),
  ("by", "B AY"),
  ("for", "F AO R"),
  ("with", "W IH DH"),
  ("about", "AH B AW T"),
  ("into", "IH N T UW"),
  ("through", "TH R UW"),
  ("not", "N AA T"),
  ("no", "N OW"),
  ("yes", "Y EH S"),
  ("ok", "OW K EY"),
  ("okay", "OW K EY"),
  ("hello", "HH AH L OW"),
  ("hi", "HH AY"),
  ("hey", "HH EY"),
  ("bye", "B AY"),
  ("good", "G UH D"),
  ("great", "G R EY T"),
  ("well", "W EH L"),
  ("right", "R AY T"),
  ("like", "L AY K"),
  ("know", "N OW"),
  ("think", "TH IH NG K"),
  ("see", "S IY"),
  ("go", "G OW"),
  ("time", "T AY M"),
  ("way", "W EY"),
  ("day", "D EY"),
  ("said", "S EH D"),
  ("come", "K AH M"),
  ("my", "M AY"),
  ("me", "M IY"),
  ("so", "S OW"),
  ("here", "HH IH R"),
  ("there", "DH EH R"),
  ("now", "N AW"),
  ("just", "JH AH S T"),
  ("also", "AO L S OW"),
  ("then", "DH EH N"),
  ("than", "DH AE N"),
  ("more", "M AO R"),
  ("very", "V EH R IY"),
  ("really", "R IH L IY"),
  ("little", "L IH T AH L"),
  ("people", "P IY P AH L"),
  ("make", "M EY K"),
  ("made", "M EY D"),
  ("new", "N UW"),
  ("old", "OW L D"),
  ("big", "B IH G"),
  ("small", "S M AO L"),
  ("world", "W ER L D"),
  ("life", "L AY F"),
  ("name", "N EY M"),
  ("back", "B AE K"),
  ("hand", "HH AE N D"),
  ("part", "P AA R T"),
  ("place", "P L EY S"),
  ("give", "G IH V"),
  ("take", "T EY K"),
  ("same", "S EY M"),
  ("after", "AE F T ER"),
  ("before", "B IH F AO R"),
  ("last", "L AE S T"),
  ("long", "L AO NG"),
  ("first", "F ER S T"),
  ("still", "S T IH L"),
  ("down", "D AW N"),
  ("own", "OW N"),
  ("work", "W ER K"),
  ("over", "OW V ER"),
  ("under", "AH N D ER"),
  ("learn", "L ER N"),
  ("help", "HH EH L P"),
  ("need", "N IY D"),
  ("feel", "F IY L"),
  ("love", "L AH V"),
  ("want", "W AA N T"),
  ("use", "Y UW Z"),
  ("try", "T R AY"),
  ("tell", "T EH L"),
  ("ask", "AE S K"),
  ("call", "K AO L"),
  ("keep", "K IY P"),
  ("talk", "T AO K"),
  ("turn", "T ER N"),
  ("start", "S T AA R T"),
  ("seem", "S IY M"),
  ("face", "F EY S"),
  ("feet", "F IY T"),
  ("mind", "M AY N D"),
  ("open", "OW P AH N"),
  ("close", "K L OW Z"),
  ("real", "R IY L"),
  ("every", "EH V R IY"),
  ("something", "S AH M TH IH NG"),
  ("nothing", "N AH TH IH NG"),
  ("everything", "EH V R IY TH IH NG"),
  ("together", "T AH G EH DH ER"),
  ("without", "W IH DH AW T"),
  ("between", "B IH T W IY N"),
  ("never", "N EH V ER"),
  ("always", "AO L W EY Z"),
  ("often", "AO F AH N"),
  ("sentence", "S EH N T AH N S"),
  ("language", "L AE NG G W AH JH"),
  ("important", "IH M P AO R T AH N T"),
  ("different", "D IH F R AH N T"),
  ("avatar", "AE V AH T AA R"),
  ("artificial", "AA R T AH F IH SH AH L"),
  ("intelligence", "IH N T EH L AH JH AH N S"),
  ("speaking", "S P IY K IH NG"),
  ("talking", "T AO K IH NG"),
  ("saying", "S EY IH NG"),
  ("typing", "T AY P IH NG"),
  ("reading", "R IY D IH NG"),
  ("writing", "R AY T IH NG"),
  ("using", "Y UW Z IH NG"),
  ("looking", "L UH K IH NG"),
  ("going", "G OW IH NG"),
  ("able", "EY B AH L"),
  ("above", "AH B AH V"),
  ("abroad", "AH B R AO D"),
  ("accept", "AE K S EH P T"),
  ("accident", "AE K S AH D AH N T"),
  ("account", "AH K AW N T"),
  ("achieve", "AH CH IY V"),
  ("across", "AH K R AO S"),
  ("act", "AE K T"),
  ("active", "AE K T IH V"),
  ("actual", "AE K CH UW AH L"),
  ("add", "AE D"),
  ("address", "AH D R EH S"),
  ("admit", "AH D M IH T"),
  ("adult", "AH D AH L T"),
  ("affect", "AH F EH K T"),
  ("afford", "AH F AO R D"),
  ("afternoon", "AE F T ER N UW N"),
  ("again", "AH G EH N"),
  ("against", "AH G EH N S T"),
  ("age", "EY JH"),
  ("agency", "EY JH AH N S IY"),
  ("agent", "EY JH AH N T"),
  ("ago", "AH G OW"),
  ("agree", "AH G R IY"),
  ("ahead", "AH HH EH D"),
  ("aid", "EY D"),
  ("aim", "EY M"),
  ("air", "EH R"),
  ("aircraft", "EH R K R AE F T"),
  ("airline", "EH R L AY N"),
  ("airport", "EH R P AO R T"),
  ("album", "AE L B AH M"),
  ("alcohol", "AE L K AH HH AO L"),
  ("alive", "AH L AY V"),
  ("allow", "AH L AW"),
  ("almost", "AO L M OW S T"),
  ("alone", "AH L OW N"),
  ("along", "AH L AO NG"),
  ("already", "AO L R EH D IY"),
  ("although", "AO L DH OW"),
  ("amazing", "AH M EY Z IH NG"),
  ("among", "AH M AH NG"),
  ("amount", "AH M AW N T"),
  ("ancient", "EY N SH AH N T"),
  ("anger", "AE NG G ER"),
  ("angle", "AE NG G AH L"),
  ("angry", "AE NG G R IY"),
  ("animal", "AE N AH M AH L"),
  ("ankle", "AE NG K AH L"),
  ("announce", "AH N AW N S"),
  ("annual", "AE N Y UW AH L"),
  ("another", "AH N AH DH ER"),
  ("answer", "AE N S ER"),
  ("anticipate", "AE N T IH S AH P EY T"),
  ("anxiety", "AE NG Z AY AH T IY"),
  ("anybody", "EH N IY B AA D IY"),
  ("anymore", "EH N IY M AO R"),
  ("anyone", "EH N IY W AH N"),
  ("anything", "EH N IY TH IH NG"),
  ("anyway", "EH N IY W EY"),
  ("anywhere", "EH N IY W EH R"),
  ("apart", "AH P AA R T"),
  ("apartment", "AH P AA R T M AH N T"),
  ("appear", "AH P IH R"),
  ("apple", "AE P AH L"),
  ("apply", "AH P L AY"),
  ("approach", "AH P R OW CH"),
  ("approve", "AH P R UW V"),
  ("area", "EH R IY AH"),
  ("argue", "AA R G Y UW"),
  ("arise", "AH R AY Z"),
  ("arm", "AA R M"),
  ("army", "AA R M IY"),
  ("around", "AH R AW N D"),
  ("arrange", "AH R EY N JH"),
  ("arrest", "AH R EH S T"),
  ("arrive", "AH R AY V"),
  ("art", "AA R T"),
  ("article", "AA R T IH K AH L"),
  ("artist", "AA R T IH S T"),
  ("as", "AE Z"),
  ("ash", "AE SH"),
  ("asleep", "AH S L IY P"),
  ("aspect", "AE S P EH K T"),
  ("assault", "AH S AO L T"),
  ("assemble", "AH S EH M B AH L"),
  ("assess", "AH S EH S"),
  ("asset", "AE S EH T"),
  ("assign", "AH S AY N"),
  ("assist", "AH S IH S T"),
  ("associate", "AH S OW S IY EY T"),
  ("assume", "AH S UW M"),
  ("assure", "AH SH UH R"),
  ("athlete", "AE TH L IY T"),
  ("atmosphere", "AE T M AH S F IH R"),
  ("atom", "AE T AH M"),
  ("attach", "AH T AE CH"),
  ("attack", "AH T AE K"),
  ("attempt", "AH T EH M P T"),
  ("attend", "AH T EH N D"),
  ("attention", "AH T EH N SH AH N"),
  ("attitude", "AE T AH T UW D"),
  ("attorney", "AH T ER N IY")
]

def WORD_EXCEPTIONS_1 : List (String × String) := [
  ("attract", "AH T R AE K T"),
  ("audience", "AO D IY AH N S"),
  ("author", "AO TH ER"),
  ("authority", "AH TH AO R AH T IY"),
  ("auto", "AO T OW"),
  ("available", "AH V EY L AH B AH L"),
  ("average", "AE V R IH JH"),
  ("avoid", "AH V OY D"),
  ("award", "AH W AO R D"),
  ("aware", "AH W EH R"),
  ("away", "AH W EY"),
  ("awful", "AO F AH L"),
  ("baby", "B EY B IY"),
  ("background", "B AE K G R AW N D"),
  ("bad", "B AE D"),
  ("bag", "B AE G"),
  ("bake", "B EY K"),
  ("balance", "B AE L AH N S"),
  ("ball", "B AO L"),
  ("ban", "B AE N"),
  ("band", "B AE N D"),
  ("bank", "B AE NG K"),
  ("bar", "B AA R"),
  ("bare", "B EH R"),
  ("bargain", "B AA R G AH N"),
  ("base", "B EY S"),
  ("basic", "B EY S IH K"),
  ("basin", "B EY S AH N"),
  ("basis", "B EY S IH S"),
  ("battle", "B AE T AH L"),
  ("bay", "B EY"),
  ("beach", "B IY CH"),
  ("bear", "B EH R"),
  ("beat", "B IY T"),
  ("beautiful", "B Y UW T AH F AH L"),
  ("because", "B IH K AO Z"),
  ("become", "B IH K AH M"),
  ("bed", "B EH D"),
  ("bedroom", "B EH D R UW M"),
  ("beer", "B IH R"),
  ("begin", "B IH G IH N"),
  ("behalf", "B IH HH AE F"),
  ("behave", "B IH HH EY V"),
  ("behind", "B IH HH AY N D"),
  ("believe", "B IH L IY V"),
  ("below", "B IH L OW"),
  ("belt", "B EH L T"),
  ("bench", "B EH N CH"),
  ("bend", "B EH N D"),
  ("beneath", "B IH N IY TH"),
  ("benefit", "B EH N AH F IH T"),
  ("beside", "B IH S AY D"),
  ("besides", "B IH S AY D Z"),
  ("best", "B EH S T"),
  ("bet", "B EH T"),
  ("better", "B EH T ER"),
  ("beyond", "B IH Y AA N D"),
  ("bible", "B AY B AH L"),
  ("bicycle", "B AY S IH K AH L"),
  ("bid", "B IH D"),
  ("bike", "B AY K"),
  ("bill", "B IH L"),
  ("bin", "B IH N"),
  ("bird", "B ER D"),
  ("birth", "B ER TH"),
  ("birthday", "B ER TH D EY"),
  ("bit", "B IH T"),
  ("bite", "B AY T"),
  ("black", "B L AE K"),
  ("blame", "B L EY M"),
  ("blank", "B L AE NG K"),
  ("blind", "B L AY N D"),
  ("block", "B L AA K"),
  ("blood", "B L AH D"),
  ("blow", "B L OW"),
  ("blue", "B L UW"),
  ("board", "B AO R D"),
  ("boat", "B OW T"),
  ("body", "B AA D IY"),
  ("boil", "B OY L"),
  ("bomb", "B AA M"),
  ("bond", "B AA N D"),
  ("bone", "B OW N"),
  ("book", "B UH K"),
  ("boom", "B UW M"),
  ("boot", "B UW T"),
  ("border", "B AO R D ER"),
  ("born", "B AO R N"),
  ("borrow", "B AA R OW"),
  ("boss", "B AO S"),
  ("both", "B OW TH"),
  ("bottle", "B AA T AH L"),
  ("bottom", "B AA T AH M"),
  ("bow", "B AW"),
  ("bowl", "B OW L"),
  ("box", "B AA K S"),
  ("boy", "B OY"),
  ("brain", "B R EY N"),
  ("branch", "B R AE N CH"),
  ("brave", "B R EY V"),
  ("bread", "B R EH D"),
  ("break", "B R EY K"),
  ("breakfast", "B R EH K F AH S T"),
  ("breast", "B R EH S T"),
  ("breath", "B R EH TH"),
  ("breathe", "B R IY DH"),
  ("brick", "B R IH K"),
  ("bridge", "B R IH JH"),
  ("brief", "B R IY F"),
  ("bright", "B R AY T"),
  ("bring", "B R IH NG"),
  ("broad", "B R AO D"),
  ("broadcast", "B R AO D K R AE S T"),
  ("broke", "B R OW K"),
  ("brother", "B R AH DH ER"),
  ("brown", "B R AW N"),
  ("brush", "B R AH SH"),
  ("budget", "B AH JH AH T"),
  ("build", "B IH L D"),
  ("bullet", "B UH L AH T"),
  ("bunch", "B AH N CH"),
  ("burden", "B ER D AH N"),
  ("burn", "B ER N"),
  ("burst", "B ER S T"),
  ("bury", "B EH R IY"),
  ("bus", "B AH S"),
  ("business", "B IH Z N AH S"),
  ("busy", "B IH Z IY"),
  ("but", "B AH T"),
  ("butter", "B AH T ER"),
  ("button", "B AH T AH N"),
  ("buy", "B AY"),
  ("cabin", "K AE B IH N"),
  ("cabinet", "K AE B AH N AH T"),
  ("cable", "K EY B AH L"),
  ("cage", "K EY JH"),
  ("cake", "K EY K"),
  ("calculate", "K AE L K Y AH L EY T"),
  ("calm", "K AA M"),
  ("camera", "K AE M R AH"),
  ("camp", "K AE M P"),
  ("campaign", "K AE M P EY N"),
  ("campus", "K AE M P AH S"),
  ("canal", "K AH N AE L"),
  ("cancel", "K AE N S AH L"),
  ("cancer", "K AE N S ER"),
  ("candidate", "K AE N D AH D EY T"),
  ("candle", "K AE N D AH L"),
  ("candy", "K AE N D IY"),
  ("cap", "K AE P"),
  ("capable", "K EY P AH B AH L"),
  ("capacity", "K AH P AE S AH T IY"),
  ("capital", "K AE P AH T AH L"),
  ("captain", "K AE P T AH N"),
  ("capture", "K AE P CH ER"),
  ("car", "K AA R"),
  ("carbon", "K AA R B AH N"),
  ("card", "K AA R D"),
  ("care", "K EH R"),
  ("career", "K AH R IH R"),
  ("careful", "K EH R F AH L"),
  ("cargo", "K AA R G OW"),
  ("carpet", "K AA R P AH T"),
  ("carriage", "K EH R IH JH"),
  ("carry", "K EH R IY"),
  ("cart", "K AA R T"),
  ("case", "K EY S"),
  ("cash", "K AE SH"),
  ("cassette", "K AH S EH T"),
  ("cast", "K AE S T"),
  ("castle", "K AE S AH L"),
  ("casual", "K AE ZH UW AH L"),
  ("cat", "K AE T"),
  ("catalog", "K AE T AH L AO G"),
  ("catch", "K AE CH"),
  ("category", "K AE T AH G AO R IY"),
  ("cattle", "K AE T AH L"),
  ("cause", "K AO Z"),
  ("cave", "K EY V"),
  ("cease", "S IY S"),
  ("ceiling", "S IY L IH NG"),
  ("celebrate", "S EH L AH B R EY T"),
  ("cell", "S EH L"),
  ("cellar", "S EH L ER"),
  ("cement", "S IH M EH N T"),
  ("census", "S EH N S AH S"),
  ("cent", "S EH N T"),
  ("center", "S EH N T ER"),
  ("central", "S EH N T R AH L"),
  ("century", "S EH N CH ER IY"),
  ("ceremony", "S EH R AH M OW N IY"),
  ("certain", "S ER T AH N"),
  ("chain", "CH EY N"),
  ("chair", "CH EH R"),
  ("chairman", "CH EH R M AH N"),
  ("challenge", "CH AE L AH N JH"),
  ("chamber", "CH EY M B ER"),
  ("champion", "CH AE M P IY AH N"),
  ("chance", "CH AE N S"),
  ("change", "CH EY N JH"),
  ("channel", "CH AE N AH L"),
  ("chapter", "CH AE P T ER"),
  ("character", "K EH R AH K T ER"),
  ("charge", "CH AA R JH"),
  ("charity", "CH EH R AH T IY"),
  ("chart", "CH AA R T"),
  ("chase", "CH EY S"),
  ("cheap", "CH IY P"),
  ("cheat", "CH IY T"),
  ("check", "CH EH K"),
  ("cheek", "CH IY K"),
  ("cheer", "CH IH R"),
  ("cheese", "CH IY Z"),
  ("chef", "SH EH F"),
  ("chemical", "K EH M IH K AH L"),
  ("chest", "CH EH S T"),
  ("chicken", "CH IH K AH N"),
  ("chief", "CH IY F"),
  ("child", "CH AY L D"),
  ("childhood", "CH AY L D HH UH D"),
  ("chip", "CH IH P"),
  ("chocolate", "CH AA K L AH T"),
  ("choice", "CH OY S"),
  ("choose", "CH UW Z"),
  ("chronic", "K R AA N IH K"),
  ("church", "CH ER CH"),
  ("cigarette", "S IH G AH R EH T"),
  ("cinema", "S IH N AH M AH"),
  ("circle", "S ER K AH L"),
  ("citizen", "S IH T AH Z AH N"),
  ("city", "S IH T IY"),
  ("civil", "S IH V AH L"),
  ("claim", "K L EY M"),
  ("class", "K L AE S"),
  ("classic", "K L AE S IH K"),
  ("classroom", "K L AE S R UW M"),
  ("clean", "K L IY N"),
  ("clear", "K L IH R"),
  ("clerk", "K L ER K"),
  ("clever", "K L EH V ER"),
  ("click", "K L IH K"),
  ("client", "K L AY AH N T"),
  ("climate", "K L AY M AH T"),
  ("climb", "K L AY M"),
  ("clinic", "K L IH N IH K"),
  ("clock", "K L AA K"),
  ("cloth", "K L AO TH"),
  ("clothes", "K L OW DH Z"),
  ("clothing", "K L OW DH IH NG"),
  ("cloud", "K L AW D"),
  ("club", "K L AH B"),
  ("clue", "K L UW"),
  ("coach", "K OW CH"),
  ("coal", "K OW L"),
  ("coalition", "K OW AH L IH SH AH N"),
  ("coast", "K OW S T"),
  ("coat", "K OW T"),
  ("code", "K OW D"),
  ("coffee", "K AO F IY"),
  ("cognitive", "K AA G N IH T IH V"),
  ("coin", "K OY N"),
  ("cold", "K OW L D"),
  ("collaborate", "K AH L AE B AH R EY T"),
  ("collapse", "K AH L AE P S"),
  ("collar", "K AA L ER"),
  ("colleague", "K AA L IY G"),
  ("collect", "K AH L EH K T"),
  ("college", "K AA L IH JH"),
  ("collision", "K AH L IH ZH AH N"),
  ("color", "K AH L ER"),
  ("column", "K AA L AH M"),
  ("combat", "K AA M B AE T"),
  ("combination", "K AA M B AH N EY SH AH N"),
  ("combine", "K AH M B AY N"),
  ("comedy", "K AA M AH D IY"),
  ("comfort", "K AH M F ER T"),
  ("comic", "K AA M IH K"),
  ("command", "K AH M AE N D"),
  ("comment", "K AA M EH N T"),
  ("commerce", "K AA M ER S"),
  ("commission", "K AH M IH SH AH N"),
  ("commit", "K AH M IH T"),
  ("committee", "K AH M IH T IY"),
  ("common", "K AA M AH N"),
  ("communicate", "K AH M Y UW N AH K EY T"),
  ("community", "K AH M Y UW N AH T IY"),
  ("company", "K AH M P AH N IY"),
  ("compare", "K AH M P EH R"),
  ("compete", "K AH M P IY T"),
  ("competent", "K AA M P AH T AH N T"),
  ("competition", "K AA M P AH T IH SH AH N"),
  ("complain", "K AH M P L EY N"),
  ("complete", "K AH M P L IY T"),
  ("complex", "K AA M P L EH K S"),
  ("component", "K AH M P OW N AH N T"),
  ("compose", "K AH M P OW Z"),
  ("composition", "K AA M P AH Z IH SH AH N"),
  ("compound", "K AA M P AW N D"),
  ("comprehensive", "K AA M P R IH HH EH N S IH V"),
  ("comprise", "K AH M P R AY Z")
]

def WORD_EXCEPTIONS_2 : List (String × String) := [
  ("computer", "K AH M P Y UW T ER"),
  ("concentrate", "K AA N S AH N T R EY T"),
  ("concept", "K AA N S EH P T"),
  ("concern", "K AH N S ER N"),
  ("concert", "K AA N S ER T"),
  ("conclude", "K AH N K L UW D"),
  ("concrete", "K AA N K R IY T"),
  ("condition", "K AH N D IH SH AH N"),
  ("conduct", "K AH N D AH K T"),
  ("conference", "K AA N F R AH N S"),
  ("confess", "K AH N F EH S"),
  ("confidence", "K AA N F AH D AH N S"),
  ("confirm", "K AH N F ER M"),
  ("conflict", "K AA N F L IH K T"),
  ("confront", "K AH N F R AH N T"),
  ("confuse", "K AH N F Y UW Z"),
  ("congress", "K AA NG G R AH S"),
  ("connect", "K AH N EH K T"),
  ("conscious", "K AA N SH AH S"),
  ("consensus", "K AH N S EH N S AH S"),
  ("consequence", "K AA N S AH K W EH N S"),
  ("consider", "K AH N S IH D ER"),
  ("consist", "K AH N S IH S T"),
  ("consistent", "K AH N S IH S T AH N T"),
  ("constant", "K AA N S T AH N T"),
  ("constitute", "K AA N S T AH T UW T"),
  ("constitution", "K AA N S T AH T UW SH AH N"),
  ("construct", "K AH N S T R AH K T"),
  ("consult", "K AH N S AH L T"),
  ("consumer", "K AH N S UW M ER"),
  ("contact", "K AA N T AE K T"),
  ("contain", "K AH N T EY N"),
  ("contemporary", "K AH N T EH M P AH R EH R IY"),
  ("content", "K AA N T EH N T"),
  ("contest", "K AA N T EH S T"),
  ("context", "K AA N T EH K S T"),
  ("continent", "K AA N T AH N AH N T"),
  ("continue", "K AH N T IH N Y UW"),
  ("contract", "K AA N T R AE K T"),
  ("contrast", "K AA N T R AE S T"),
  ("contribute", "K AH N T R IH B Y UW T"),
  ("control", "K AH N T R OW L"),
  ("convention", "K AH N V EH N SH AH N"),
  ("conversation", "K AA N V ER S EY SH AH N"),
  ("convert", "K AH N V ER T"),
  ("convince", "K AH N V IH N S"),
  ("cook", "K UH K"),
  ("cookie", "K UH K IY"),
  ("cool", "K UW L"),
  ("cooperate", "K OW AA P ER EY T"),
  ("coordinate", "K OW AO R D AH N EY T"),
  ("cop", "K AA P"),
  ("cope", "K OW P"),
  ("copy", "K AA P IY"),
  ("corner", "K AO R N ER"),
  ("corporate", "K AO R P ER AH T"),
  ("correct", "K AH R EH K T"),
  ("correspond", "K AO R AH S P AA N D"),
  ("cost", "K AO S T"),
  ("cotton", "K AA T AH N"),
  ("couch", "K AW CH"),
  ("cough", "K AO F"),
  ("council", "K AW N S AH L"),
  ("counsel", "K AW N S AH L"),
  ("count", "K AW N T"),
  ("counter", "K AW N T ER"),
  ("country", "K AH N T R IY"),
  ("county", "K AW N T IY"),
  ("couple", "K AH P AH L"),
  ("courage", "K ER IH JH"),
  ("course", "K AO R S"),
  ("court", "K AO R T"),
  ("cousin", "K AH Z AH N"),
  ("cover", "K AH V ER"),
  ("cow", "K AW"),
  ("crack", "K R AE K"),
  ("craft", "K R AE F T"),
  ("crash", "K R AE SH"),
  ("crazy", "K R EY Z IY"),
  ("cream", "K R IY M"),
  ("create", "K R IY EY T"),
  ("creative", "K R IY EY T IH V"),
  ("creature", "K R IY CH ER"),
  ("credit", "K R EH D IH T"),
  ("crew", "K R UW"),
  ("crime", "K R AY M"),
  ("criminal", "K R IH M AH N AH L"),
  ("crisis", "K R AY S IH S"),
  ("crisp", "K R IH S P"),
  ("criteria", "K R AY T IH R IY AH"),
  ("critic", "K R IH T IH K"),
  ("critical", "K R IH T IH K AH L"),
  ("criticism", "K R IH T AH S IH Z AH M"),
  ("criticize", "K R IH T AH S AY Z"),
  ("crop", "K R AA P"),
  ("cross", "K R AO S"),
  ("crowd", "K R AW D"),
  ("crown", "K R AW N"),
  ("crucial", "K R UW SH AH L"),
  ("crude", "K R UW D"),
  ("cruel", "K R UW AH L"),
  ("cruise", "K R UW Z"),
  ("crush", "K R AH SH"),
  ("cry", "K R AY"),
  ("crystal", "K R IH S T AH L"),
  ("cube", "K Y UW B"),
  ("cue", "K Y UW"),
  ("cuisine", "K W IH Z IY N"),
  ("cultivate", "K AH L T AH V EY T"),
  ("culture", "K AH L CH ER"),
  ("cup", "K AH P"),
  ("cupboard", "K AH B ER D"),
  ("curb", "K ER B"),
  ("cure", "K Y UH R"),
  ("curious", "K Y UH R IY AH S"),
  ("curl", "K ER L"),
  ("current", "K ER AH N T"),
  ("curriculum", "K ER IH K Y AH L AH M"),
  ("curse", "K ER S"),
  ("curtain", "K ER T AH N"),
  ("curve", "K ER V"),
  ("cushion", "K UH SH AH N"),
  ("custom", "K AH S T AH M"),
  ("customer", "K AH S T AH M ER"),
  ("cut", "K AH T"),
  ("cycle", "S AY K AH L"),
  ("dad", "D AE D"),
  ("daily", "D EY L IY"),
  ("dairy", "D EH R IY"),
  ("dam", "D AE M"),
  ("damage", "D AE M IH JH"),
  ("damn", "D AE M"),
  ("dance", "D AE N S"),
  ("danger", "D EY N JH ER"),
  ("dark", "D AA R K"),
  ("data", "D EY T AH"),
  ("date", "D EY T"),
  ("daughter", "D AO T ER"),
  ("dawn", "D AO N"),
  ("dead", "D EH D"),
  ("deal", "D IY L"),
  ("death", "D EH TH"),
  ("debate", "D IH B EY T"),
  ("debt", "D EH T"),
  ("decade", "D EH K EY D"),
  ("decide", "D IH S AY D"),
  ("decision", "D IH S IH ZH AH N"),
  ("deck", "D EH K"),
  ("declare", "D IH K L EH R"),
  ("decline", "D IH K L AY N"),
  ("decorate", "D EH K ER EY T"),
  ("decrease", "D IH K R IY S"),
  ("deep", "D IY P"),
  ("deer", "D IH R"),
  ("defeat", "D IH F IY T"),
  ("defend", "D IH F EH N D"),
  ("defense", "D IH F EH N S"),
  ("define", "D IH F AY N"),
  ("definite", "D EH F AH N AH T"),
  ("definition", "D EH F AH N IH SH AH N"),
  ("degree", "D IH G R IY"),
  ("delay", "D IH L EY"),
  ("delete", "D IH L IY T"),
  ("delight", "D IH L AY T"),
  ("deliver", "D IH L IH V ER"),
  ("delivery", "D IH L IH V ER IY"),
  ("demand", "D IH M AE N D"),
  ("democracy", "D IH M AA K R AH S IY"),
  ("demonstrate", "D EH M AH N S T R EY T"),
  ("dense", "D EH N S"),
  ("dentist", "D EH N T IH S T"),
  ("deny", "D IH N AY"),
  ("depart", "D IH P AA R T"),
  ("department", "D IH P AA R T M AH N T"),
  ("depend", "D IH P EH N D"),
  ("deposit", "D IH P AA Z AH T"),
  ("depress", "D IH P R EH S"),
  ("depth", "D EH P TH"),
  ("deputy", "D EH P Y AH T IY"),
  ("derive", "D IH R AY V"),
  ("descend", "D IH S EH N D"),
  ("describe", "D IH S K R AY B"),
  ("description", "D IH S K R IH P SH AH N"),
  ("desert", "D EH Z ER T"),
  ("deserve", "D IH Z ER V"),
  ("design", "D IH Z AY N"),
  ("desire", "D IH Z AY ER"),
  ("desk", "D EH S K"),
  ("despair", "D IH S P EH R"),
  ("despite", "D IH S P AY T"),
  ("dessert", "D IH Z ER T"),
  ("destination", "D EH S T AH N EY SH AH N"),
  ("destroy", "D IH S T R OY"),
  ("destruction", "D IH S T R AH K SH AH N"),
  ("detail", "D IH T EY L"),
  ("detect", "D IH T EH K T"),
  ("determine", "D IH T ER M AH N"),
  ("develop", "D IH V EH L AH P"),
  ("device", "D IH V AY S"),
  ("devil", "D EH V AH L"),
  ("devote", "D IH V OW T"),
  ("diagram", "D AY AH G R AE M"),
  ("dial", "D AY AH L"),
  ("dialogue", "D AY AH L AO G"),
  ("diamond", "D AY AH M AH N D"),
  ("diary", "D AY ER IY"),
  ("dictate", "D IH K T EY T"),
  ("dictionary", "D IH K SH AH N EH R IY"),
  ("die", "D AY"),
  ("diet", "D AY AH T"),
  ("differ", "D IH F ER"),
  ("difference", "D IH F R AH N S"),
  ("difficult", "D IH F AH K AH L T"),
  ("difficulty", "D IH F AH K AH L T IY"),
  ("dig", "D IH G"),
  ("digital", "D IH JH AH T AH L"),
  ("dimension", "D IH M EH N SH AH N"),
  ("dinner", "D IH N ER"),
  ("direct", "D IH R EH K T"),
  ("direction", "D IH R EH K SH AH N"),
  ("director", "D IH R EH K T ER"),
  ("dirt", "D ER T"),
  ("dirty", "D ER T IY"),
  ("disability", "D IH S AH B IH L AH T IY"),
  ("disadvantage", "D IH S AH D V AE N T IH JH"),
  ("disagree", "D IH S AH G R IY"),
  ("disappear", "D IH S AH P IH R"),
  ("disappoint", "D IH S AH P OY N T"),
  ("disaster", "D IH Z AE S T ER"),
  ("discipline", "D IH S AH P L AH N"),
  ("discuss", "D IH S K AH S"),
  ("discussion", "D IH S K AH SH AH N"),
  ("disease", "D IH Z IY Z"),
  ("disgust", "D IH S G AH S T"),
  ("dish", "D IH SH"),
  ("dismiss", "D IH S M IH S"),
  ("disorder", "D IH S AO R D ER"),
  ("display", "D IH S P L EY"),
  ("dispute", "D IH S P Y UW T"),
  ("distance", "D IH S T AH N S"),
  ("distant", "D IH S T AH N T"),
  ("distinct", "D IH S T IH NG K T"),
  ("distinguish", "D IH S T IH NG G W IH SH"),
  ("distribute", "D IH S T R IH B Y UW T"),
  ("district", "D IH S T R IH K T"),
  ("disturb", "D IH S T ER B"),
  ("dive", "D AY V"),
  ("diverse", "D IH V ER S"),
  ("divide", "D IH V AY D"),
  ("division", "D IH V IH ZH AH N"),
  ("divorce", "D IH V AO R S"),
  ("dizzy", "D IH Z IY"),
  ("doctor", "D AA K T ER"),
  ("document", "D AA K Y AH M AH N T"),
  ("dog", "D AO G"),
  ("dollar", "D AA L ER"),
  ("domain", "D OW M EY N"),
  ("domestic", "D AH M EH S T IH K"),
  ("dominant", "D AA M AH N AH N T"),
  ("dominate", "D AA M AH N EY T"),
  ("donate", "D OW N EY T"),
  ("door", "D AO R"),
  ("dose", "D OW S"),
  ("double", "D AH B AH L"),
  ("doubt", "D AW T"),
  ("dozen", "D AH Z AH N"),
  ("draft", "D R AE F T"),
  ("drag", "D R AE G"),
  ("drama", "D R AA M AH"),
  ("dramatic", "D R AH M AE T IH K"),
  ("draw", "D R AO"),
  ("drawing", "D R AO IH NG"),
  ("dream", "D R IY M"),
  ("dress", "D R EH S"),
  ("drift", "D R IH F T"),
  ("drill", "D R IH L"),
  ("drink", "D R IH NG K"),
  ("drive", "D R AY V"),
  ("driver", "D R AY V ER"),
  ("drop", "D R AA P"),
  ("drug", "D R AH G"),
  ("drum", "D R AH M"),
  ("drunk", "D R AH NG K"),
  ("dry", "D R AY"),
  ("duck", "D AH K"),
  ("due", "D UW"),
  ("dull", "D AH L"),
  ("dumb", "D AH M"),
  ("dump", "D AH M P"),
  ("during", "D UH R IH NG"),
  ("dust", "D AH S T"),
  ("duty", "D UW T IY"),
  ("each", "IY CH"),
  ("eager", "IY G ER"),
  ("ear", "IH R"),
  ("early", "ER L IY"),
  ("earn", "ER N"),
  ("earth", "ER TH"),
  ("ease", "IY Z"),
  ("east", "IY S T")
]

def WORD_EXCEPTIONS_3 : List (String × String) := [
  ("easy", "IY Z IY"),
  ("eat", "IY T"),
  ("echo", "EH K OW"),
  ("economic", "EH K AH N AA M IH K"),
  ("economy", "IH K AA N AH M IY"),
  ("edge", "EH JH"),
  ("edition", "IH D IH SH AH N"),
  ("editor", "EH D IH T ER"),
  ("educate", "EH JH AH K EY T"),
  ("education", "EH JH AH K EY SH AH N"),
  ("effect", "IH F EH K T"),
  ("effective", "IH F EH K T IH V"),
  ("efficient", "IH F IH SH AH N T"),
  ("effort", "EH F ER T"),
  ("egg", "EH G"),
  ("either", "AY DH ER"),
  ("elaborate", "IH L AE B ER AH T"),
  ("elastic", "IH L AE S T IH K"),
  ("elbow", "EH L B OW"),
  ("elder", "EH L D ER"),
  ("elect", "IH L EH K T"),
  ("election", "IH L EH K SH AH N"),
  ("electric", "IH L EH K T R IH K"),
  ("electricity", "IH L EH K T R IH S AH T IY"),
  ("electronic", "IH L EH K T R AA N IH K"),
  ("elegant", "EH L AH G AH N T"),
  ("element", "EH L AH M AH N T"),
  ("elephant", "EH L AH F AH N T"),
  ("elevator", "EH L AH V EY T ER"),
  ("eleven", "IH L EH V AH N"),
  ("eligible", "EH L IH JH AH B AH L"),
  ("eliminate", "IH L IH M AH N EY T"),
  ("else", "EH L S"),
  ("elsewhere", "EH L S W EH R"),
  ("email", "IY M EY L"),
  ("embarrass", "IH M B EH R AH S"),
  ("embassy", "EH M B AH S IY"),
  ("embrace", "IH M B R EY S"),
  ("emerge", "IH M ER JH"),
  ("emergency", "IH M ER JH AH N S IY"),
  ("emotion", "IH M OW SH AH N"),
  ("emotional", "IH M OW SH AH N AH L"),
  ("emphasis", "EH M F AH S IH S"),
  ("emphasize", "EH M F AH S AY Z"),
  ("empire", "EH M P AY ER"),
  ("employ", "IH M P L OY"),
  ("employee", "IH M P L OY IY"),
  ("employer", "IH M P L OY ER"),
  ("empty", "EH M P T IY"),
  ("enable", "IH N EY B AH L"),
  ("encounter", "IH N K AW N T ER"),
  ("encourage", "IH N K ER IH JH"),
  ("end", "EH N D"),
  ("enemy", "EH N AH M IY"),
  ("energy", "EH N ER JH IY"),
  ("enforce", "IH N F AO R S"),
  ("engage", "IH N G EY JH"),
  ("engine", "EH N JH AH N"),
  ("engineer", "EH N JH AH N IH R"),
  ("enhance", "IH N HH AE N S"),
  ("enjoy", "IH N JH OY"),
  ("enormous", "IH N AO R M AH S"),
  ("enough", "IH N AH F"),
  ("ensure", "IH N SH UH R"),
  ("enter", "EH N T ER"),
  ("enterprise", "EH N T ER P R AY Z"),
  ("entertainment", "EH N T ER T EY N M AH N T"),
  ("entire", "IH N T AY ER"),
  ("entrance", "EH N T R AH N S"),
  ("entry", "EH N T R IY"),
  ("environment", "IH N V AY R AH N M AH N T"),
  ("equal", "IY K W AH L"),
  ("equipment", "IH K W IH P M AH N T"),
  ("equivalent", "IH K W IH V AH L AH N T"),
  ("era", "IH R AH"),
  ("error", "EH R ER"),
  ("escape", "IH S K EY P"),
  ("especially", "IH S P EH SH AH L IY"),
  ("essay", "EH S EY"),
  ("essential", "IH S EH N SH AH L"),
  ("establish", "IH S T AE B L IH SH"),
  ("estate", "IH S T EY T"),
  ("estimate", "EH S T AH M EY T"),
  ("etc", "EH T S EH T ER AH"),
  ("ethnic", "EH TH N IH K"),
  ("evaluate", "IH V AE L Y UW EY T"),
  ("even", "IY V AH N"),
  ("evening", "IY V N IH NG"),
  ("event", "IH V EH N T"),
  ("eventually", "IH V EH N CH UW AH L IY"),
  ("ever", "EH V ER"),
  ("evidence", "EH V AH D AH N S"),
  ("evil", "IY V AH L"),
  ("exact", "IH G Z AE K T"),
  ("exactly", "IH G Z AE K T L IY"),
  ("exam", "IH G Z AE M"),
  ("examine", "IH G Z AE M AH N"),
  ("example", "IH G Z AE M P AH L"),
  ("exceed", "IH K S IY D"),
  ("excellent", "EH K S AH L AH N T"),
  ("except", "IH K S EH P T"),
  ("exchange", "IH K S CH EY N JH"),
  ("excite", "IH K S AY T"),
  ("exciting", "IH K S AY T IH NG"),
  ("exclude", "IH K S K L UW D"),
  ("excuse", "IH K S K Y UW Z"),
  ("executive", "IH G Z EH K Y AH T IH V"),
  ("exercise", "EH K S ER S AY Z"),
  ("exhibit", "IH G Z IH B IH T"),
  ("exhibition", "EH K S AH B IH SH AH N"),
  ("exist", "IH G Z IH S T"),
  ("exit", "EH K S IH T"),
  ("expand", "IH K S P AE N D"),
  ("expect", "IH K S P EH K T"),
  ("expense", "IH K S P EH N S"),
  ("expensive", "IH K S P EH N S IH V"),
  ("experience", "IH K S P IH R IY AH N S"),
  ("experiment", "IH K S P EH R AH M AH N T"),
  ("expert", "EH K S P ER T"),
  ("explain", "IH K S P L EY N"),
  ("explode", "IH K S P L OW D"),
  ("explore", "IH K S P L AO R"),
  ("export", "EH K S P AO R T"),
  ("expose", "IH K S P OW Z"),
  ("express", "IH K S P R EH S"),
  ("extend", "IH K S T EH N D"),
  ("extent", "IH K S T EH N T"),
  ("external", "IH K S T ER N AH L"),
  ("extra", "EH K S T R AH"),
  ("extract", "IH K S T R AE K T"),
  ("extreme", "IH K S T R IY M"),
  ("eye", "AY"),
  ("facility", "F AH S IH L AH T IY"),
  ("fact", "F AE K T"),
  ("factor", "F AE K T ER"),
  ("factory", "F AE K T ER IY"),
  ("faculty", "F AE K AH L T IY"),
  ("fade", "F EY D"),
  ("fail", "F EY L"),
  ("failure", "F EY L Y ER"),
  ("fair", "F EH R"),
  ("fairy", "F EH R IY"),
  ("faith", "F EY TH"),
  ("fall", "F AO L"),
  ("false", "F AO L S"),
  ("fame", "F EY M"),
  ("family", "F AE M AH L IY"),
  ("famous", "F EY M AH S"),
  ("fan", "F AE N"),
  ("fancy", "F AE N S IY"),
  ("fantastic", "F AE N T AE S T IH K"),
  ("fantasy", "F AE N T AH S IY"),
  ("far", "F AA R"),
  ("farm", "F AA R M"),
  ("farmer", "F AA R M ER"),
  ("fashion", "F AE SH AH N"),
  ("fast", "F AE S T"),
  ("fat", "F AE T"),
  ("fate", "F EY T"),
  ("father", "F AA DH ER"),
  ("fatigue", "F AH T IY G"),
  ("fault", "F AO L T"),
  ("favor", "F EY V ER"),
  ("favorite", "F EY V R IH T"),
  ("fear", "F IH R"),
  ("feather", "F EH DH ER"),
  ("feature", "F IY CH ER"),
  ("federal", "F EH D ER AH L"),
  ("fee", "F IY"),
  ("feed", "F IY D"),
  ("feedback", "F IY D B AE K"),
  ("feeling", "F IY L IH NG"),
  ("fellow", "F EH L OW"),
  ("female", "F IY M EY L"),
  ("fence", "F EH N S"),
  ("festival", "F EH S T AH V AH L"),
  ("fetch", "F EH CH"),
  ("fever", "F IY V ER"),
  ("few", "F Y UW"),
  ("fiction", "F IH K SH AH N"),
  ("field", "F IY L D"),
  ("fierce", "F IH R S"),
  ("fifteen", "F IH F T IY N"),
  ("fifth", "F IH F TH"),
  ("fifty", "F IH F T IY"),
  ("fight", "F AY T"),
  ("figure", "F IH G Y ER"),
  ("file", "F AY L"),
  ("fill", "F IH L"),
  ("film", "F IH L M"),
  ("final", "F AY N AH L"),
  ("finally", "F AY N AH L IY"),
  ("finance", "F AH N AE N S"),
  ("find", "F AY N D"),
  ("fine", "F AY N"),
  ("finger", "F IH NG G ER"),
  ("finish", "F IH N IH SH"),
  ("fire", "F AY ER"),
  ("firm", "F ER M"),
  ("fish", "F IH SH"),
  ("fishing", "F IH SH IH NG"),
  ("fit", "F IH T"),
  ("fitness", "F IH T N AH S"),
  ("fix", "F IH K S"),
  ("flag", "F L AE G"),
  ("flame", "F L EY M"),
  ("flash", "F L AE SH"),
  ("flat", "F L AE T"),
  ("flavor", "F L EY V ER"),
  ("flaw", "F L AO"),
  ("flesh", "F L EH SH"),
  ("flight", "F L AY T"),
  ("float", "F L OW T"),
  ("flood", "F L AH D"),
  ("floor", "F L AO R"),
  ("flour", "F L AW ER"),
  ("flow", "F L OW"),
  ("flower", "F L AW ER"),
  ("fly", "F L AY"),
  ("focus", "F OW K AH S"),
  ("fog", "F AO G"),
  ("fold", "F OW L D"),
  ("folk", "F OW K"),
  ("follow", "F AA L OW"),
  ("following", "F AA L OW IH NG"),
  ("food", "F UW D"),
  ("foot", "F UH T"),
  ("football", "F UH T B AO L"),
  ("force", "F AO R S"),
  ("foreign", "F AO R AH N"),
  ("forest", "F AO R AH S T"),
  ("forever", "F ER EH V ER"),
  ("forget", "F ER G EH T"),
  ("forgive", "F ER G IH V"),
  ("fork", "F AO R K"),
  ("form", "F AO R M"),
  ("formal", "F AO R M AH L"),
  ("former", "F AO R M ER"),
  ("fortune", "F AO R CH AH N"),
  ("forty", "F AO R T IY"),
  ("forward", "F AO R W ER D"),
  ("fossil", "F AA S AH L"),
  ("foster", "F AO S T ER"),
  ("found", "F AW N D"),
  ("foundation", "F AW N D EY SH AH N"),
  ("fountain", "F AW N T AH N"),
  ("fourteen", "F AO R T IY N"),
  ("fourth", "F AO R TH"),
  ("frame", "F R EY M"),
  ("framework", "F R EY M W ER K"),
  ("frank", "F R AE NG K"),
  ("fraud", "F R AO D"),
  ("free", "F R IY"),
  ("freedom", "F R IY D AH M"),
  ("freeze", "F R IY Z"),
  ("frequent", "F R IY K W AH N T"),
  ("fresh", "F R EH SH"),
  ("friend", "F R EH N D"),
  ("friendly", "F R EH N D L IY"),
  ("friendship", "F R EH N D SH IH P"),
  ("front", "F R AH N T"),
  ("fruit", "F R UW T"),
  ("frustrate", "F R AH S T R EY T"),
  ("fry", "F R AY"),
  ("fuel", "F Y UW AH L"),
  ("full", "F UH L"),
  ("fun", "F AH N"),
  ("function", "F AH NG K SH AH N"),
  ("fund", "F AH N D"),
  ("fundamental", "F AH N D AH M EH N T AH L"),
  ("funeral", "F Y UW N ER AH L"),
  ("funny", "F AH N IY"),
  ("fur", "F ER"),
  ("furniture", "F ER N IH CH ER"),
  ("further", "F ER DH ER"),
  ("future", "F Y UW CH ER"),
  ("gain", "G EY N"),
  ("game", "G EY M"),
  ("gang", "G AE NG"),
  ("gap", "G AE P"),
  ("garage", "G AH R AA ZH"),
  ("garden", "G AA R D AH N"),
  ("gas", "G AE S"),
  ("gate", "G EY T"),
  ("gather", "G AE DH ER"),
  ("gay", "G EY"),
  ("gaze", "G EY Z"),
  ("gear", "G IH R"),
  ("gender", "JH EH N D ER"),
  ("gene", "JH IY N"),
  ("general", "JH EH N ER AH L"),
  ("generate", "JH EH N ER EY T"),
  ("generation", "JH EH N ER EY SH AH N"),
  ("genetic", "JH AH N EH T IH K"),
  ("gentle", "JH EH N T AH L"),
  ("gentleman", "JH EH N T AH L M AH N"),
  ("genuine", "JH EH N Y UW AH N"),
  ("geography", "JH IY AA G R AH F IY"),
  ("gesture", "JH EH S CH ER"),
  ("get", "G EH T")
]

def WORD_EXCEPTIONS_4 : List (String × String) := [
  ("ghost", "G OW S T"),
  ("giant", "JH AY AH N T"),
  ("gift", "G IH F T"),
  ("girl", "G ER L"),
  ("glad", "G L AE D"),
  ("glance", "G L AE N S"),
  ("glass", "G L AE S"),
  ("glimpse", "G L IH M P S"),
  ("global", "G L OW B AH L"),
  ("glory", "G L AO R IY"),
  ("glove", "G L AH V"),
  ("goal", "G OW L"),
  ("god", "G AA D"),
  ("gold", "G OW L D"),
  ("golden", "G OW L D AH N"),
  ("government", "G AH V ER N M AH N T"),
  ("grab", "G R AE B"),
  ("grace", "G R EY S"),
  ("grade", "G R EY D"),
  ("gradually", "G R AE JH UW AH L IY"),
  ("graduate", "G R AE JH UW EY T"),
  ("grain", "G R EY N"),
  ("grand", "G R AE N D"),
  ("grandfather", "G R AE N D F AA DH ER"),
  ("grandmother", "G R AE N D M AH DH ER"),
  ("grant", "G R AE N T"),
  ("grass", "G R AE S"),
  ("grateful", "G R EY T F AH L"),
  ("grave", "G R EY V"),
  ("gray", "G R EY"),
  ("green", "G R IY N"),
  ("greet", "G R IY T"),
  ("grew", "G R UW"),
  ("ground", "G R AW N D"),
  ("group", "G R UW P"),
  ("grow", "G R OW"),
  ("growth", "G R OW TH"),
  ("guarantee", "G EH R AH N T IY"),
  ("guard", "G AA R D"),
  ("guess", "G EH S"),
  ("guest", "G EH S T"),
  ("guide", "G AY D"),
  ("guilty", "G IH L T IY"),
  ("guitar", "G IH T AA R"),
  ("gun", "G AH N"),
  ("guy", "G AY"),
  ("gym", "JH IH M"),
  ("habit", "HH AE B AH T"),
  ("hair", "HH EH R"),
  ("half", "HH AE F"),
  ("hall", "HH AO L"),
  ("handle", "HH AE N D AH L"),
  ("hang", "HH AE NG"),
  ("happen", "HH AE P AH N"),
  ("happy", "HH AE P IY"),
  ("hard", "HH AA R D"),
  ("hardly", "HH AA R D L IY"),
  ("harm", "HH AA R M"),
  ("hat", "HH AE T"),
  ("hate", "HH EY T"),
  ("head", "HH EH D"),
  ("health", "HH EH L TH"),
  ("healthy", "HH EH L TH IY"),
  ("hear", "HH IH R"),
  ("heart", "HH AA R T"),
  ("heat", "HH IY T"),
  ("heaven", "HH EH V AH N"),
  ("heavy", "HH EH V IY"),
  ("height", "HH AY T"),
  ("hell", "HH EH L"),
  ("hence", "HH EH N S"),
  ("hero", "HH IH R OW"),
  ("herself", "HH ER S EH L F"),
  ("hesitate", "HH EH Z AH T EY T"),
  ("hide", "HH AY D"),
  ("high", "HH AY"),
  ("highlight", "HH AY L AY T"),
  ("highway", "HH AY W EY"),
  ("hill", "HH IH L"),
  ("himself", "HH IH M S EH L F"),
  ("hip", "HH IH P"),
  ("hire", "HH AY ER"),
  ("history", "HH IH S T ER IY"),
  ("hit", "HH IH T"),
  ("hold", "HH OW L D"),
  ("hole", "HH OW L"),
  ("holiday", "HH AA L AH D EY"),
  ("home", "HH OW M"),
  ("homework", "HH OW M W ER K"),
  ("honest", "AA N IH S T"),
  ("hope", "HH OW P"),
  ("horror", "HH AO R ER"),
  ("horse", "HH AO R S"),
  ("hospital", "HH AA S P IH T AH L"),
  ("host", "HH OW S T"),
  ("hot", "HH AA T"),
  ("hotel", "HH OW T EH L"),
  ("hour", "AW ER"),
  ("house", "HH AW S"),
  ("housing", "HH AW Z IH NG"),
  ("however", "HH AW EH V ER"),
  ("huge", "HH Y UW JH"),
  ("human", "HH Y UW M AH N"),
  ("humor", "HH Y UW M ER"),
  ("hundred", "HH AH N D R AH D"),
  ("hungry", "HH AH NG G R IY"),
  ("hunt", "HH AH N T"),
  ("hurry", "HH ER IY"),
  ("hurt", "HH ER T"),
  ("husband", "HH AH Z B AH N D"),
  ("ice", "AY S"),
  ("idea", "AY D IY AH"),
  ("ideal", "AY D IY AH L"),
  ("identify", "AY D EH N T AH F AY"),
  ("identity", "AY D EH N T AH T IY"),
  ("ignore", "IH G N AO R"),
  ("ill", "IH L"),
  ("illegal", "IH L IY G AH L"),
  ("illness", "IH L N AH S"),
  ("image", "IH M AH JH"),
  ("imagine", "IH M AE JH AH N"),
  ("immediate", "IH M IY D IY AH T"),
  ("immense", "IH M EH N S"),
  ("immigrant", "IH M AH G R AH N T"),
  ("impact", "IH M P AE K T"),
  ("import", "IH M P AO R T"),
  ("impose", "IH M P OW Z"),
  ("impossible", "IH M P AA S AH B AH L"),
  ("impress", "IH M P R EH S"),
  ("impression", "IH M P R EH SH AH N"),
  ("improve", "IH M P R UW V"),
  ("inch", "IH N CH"),
  ("incident", "IH N S AH D AH N T"),
  ("include", "IH N K L UW D"),
  ("including", "IH N K L UW D IH NG"),
  ("income", "IH N K AH M"),
  ("increase", "IH N K R IY S"),
  ("indeed", "IH N D IY D"),
  ("independent", "IH N D IH P EH N D AH N T"),
  ("index", "IH N D EH K S"),
  ("indicate", "IH N D AH K EY T"),
  ("individual", "IH N D AH V IH JH UW AH L"),
  ("indoor", "IH N D AO R"),
  ("industry", "IH N D AH S T R IY"),
  ("infant", "IH N F AH N T"),
  ("infect", "IH N F EH K T"),
  ("inflation", "IH N F L EY SH AH N"),
  ("influence", "IH N F L UW AH N S"),
  ("inform", "IH N F AO R M"),
  ("information", "IH N F ER M EY SH AH N"),
  ("initial", "IH N IH SH AH L"),
  ("injury", "IH N JH ER IY"),
  ("ink", "IH NG K"),
  ("inner", "IH N ER"),
  ("innocent", "IH N AH S AH N T"),
  ("innovation", "IH N AH V EY SH AH N"),
  ("input", "IH N P UH T"),
  ("inquiry", "IH N K W AY R IY"),
  ("insect", "IH N S EH K T"),
  ("inside", "IH N S AY D"),
  ("insight", "IH N S AY T"),
  ("insist", "IH N S IH S T"),
  ("inspect", "IH N S P EH K T"),
  ("inspire", "IH N S P AY ER"),
  ("install", "IH N S T AO L"),
  ("instance", "IH N S T AH N S"),
  ("instead", "IH N S T EH D"),
  ("institute", "IH N S T AH T UW T"),
  ("institution", "IH N S T AH T UW SH AH N"),
  ("instruct", "IH N S T R AH K T"),
  ("instruction", "IH N S T R AH K SH AH N"),
  ("instrument", "IH N S T R AH M AH N T"),
  ("insurance", "IH N SH UH R AH N S"),
  ("intend", "IH N T EH N D"),
  ("intense", "IH N T EH N S"),
  ("intention", "IH N T EH N SH AH N"),
  ("interest", "IH N T R AH S T"),
  ("interesting", "IH N T R AH S T IH NG"),
  ("internal", "IH N T ER N AH L"),
  ("international", "IH N T ER N AE SH AH N AH L"),
  ("internet", "IH N T ER N EH T"),
  ("interview", "IH N T ER V Y UW"),
  ("introduce", "IH N T R AH D UW S"),
  ("invention", "IH N V EH N SH AH N"),
  ("invest", "IH N V EH S T"),
  ("investigate", "IH N V EH S T AH G EY T"),
  ("investment", "IH N V EH S T M AH N T"),
  ("invite", "IH N V AY T"),
  ("involve", "IH N V AA L V"),
  ("iron", "AY ER N"),
  ("island", "AY L AH N D"),
  ("issue", "IH SH UW"),
  ("item", "AY T AH M"),
  ("itself", "IH T S EH L F"),
  ("jacket", "JH AE K AH T"),
  ("job", "JH AA B"),
  ("join", "JH OY N"),
  ("joke", "JH OW K"),
  ("journey", "JH ER N IY"),
  ("joy", "JH OY"),
  ("judge", "JH AH JH"),
  ("juice", "JH UW S"),
  ("jump", "JH AH M P"),
  ("key", "K IY"),
  ("kick", "K IH K"),
  ("kid", "K IH D"),
  ("kill", "K IH L"),
  ("kind", "K AY N D"),
  ("king", "K IH NG"),
  ("kiss", "K IH S"),
  ("kitchen", "K IH CH AH N"),
  ("knee", "N IY"),
  ("knife", "N AY F"),
  ("knock", "N AA K"),
  ("knowledge", "N AA L IH JH"),
  ("lab", "L AE B"),
  ("lack", "L AE K"),
  ("lady", "L EY D IY"),
  ("lake", "L EY K"),
  ("land", "L AE N D"),
  ("large", "L AA R JH"),
  ("late", "L EY T"),
  ("later", "L EY T ER"),
  ("laugh", "L AE F"),
  ("law", "L AO"),
  ("lawyer", "L AO Y ER"),
  ("lay", "L EY"),
  ("layer", "L EY ER"),
  ("lead", "L IY D"),
  ("leader", "L IY D ER"),
  ("leaf", "L IY F"),
  ("league", "L IY G"),
  ("least", "L IY S T"),
  ("leather", "L EH DH ER"),
  ("leave", "L IY V"),
  ("lecture", "L EH K CH ER"),
  ("left", "L EH F T"),
  ("leg", "L EH G"),
  ("legal", "L IY G AH L"),
  ("legend", "L EH JH AH N D"),
  ("leisure", "L IY ZH ER"),
  ("lemon", "L EH M AH N"),
  ("lend", "L EH N D"),
  ("length", "L EH NG K TH"),
  ("less", "L EH S"),
  ("lesson", "L EH S AH N"),
  ("let", "L EH T"),
  ("letter", "L EH T ER"),
  ("level", "L EH V AH L"),
  ("library", "L AY B R EH R IY"),
  ("license", "L AY S AH N S"),
  ("lie", "L AY"),
  ("lifestyle", "L AY F S T AY L"),
  ("lifetime", "L AY F T AY M"),
  ("lift", "L IH F T"),
  ("light", "L AY T"),
  ("likely", "L AY K L IY"),
  ("limit", "L IH M AH T"),
  ("line", "L AY N"),
  ("link", "L IH NG K"),
  ("lip", "L IH P"),
  ("list", "L IH S T"),
  ("listen", "L IH S AH N"),
  ("literature", "L IH T ER AH CH ER"),
  ("live", "L IH V"),
  ("load", "L OW D"),
  ("loan", "L OW N"),
  ("local", "L OW K AH L"),
  ("locate", "L OW K EY T"),
  ("location", "L OW K EY SH AH N"),
  ("lock", "L AA K"),
  ("logic", "L AA JH IH K"),
  ("logical", "L AA JH IH K AH L"),
  ("lonely", "L OW N L IY"),
  ("look", "L UH K"),
  ("loose", "L UW S"),
  ("lord", "L AO R D"),
  ("lose", "L UW Z"),
  ("loss", "L AO S"),
  ("lost", "L AO S T"),
  ("lot", "L AA T"),
  ("loud", "L AW D"),
  ("lovely", "L AH V L IY"),
  ("low", "L OW"),
  ("luck", "L AH K"),
  ("lucky", "L AH K IY"),
  ("lunch", "L AH N CH"),
  ("lung", "L AH NG"),
  ("machine", "M AH SH IY N"),
  ("mad", "M AE D"),
  ("magazine", "M AE G AH Z IY N"),
  ("magic", "M AE JH IH K"),
  ("mail", "M EY L"),
  ("main", "M EY N"),
  ("maintain", "M EY N T EY N"),
  ("major", "M EY JH ER"),
  ("majority", "M AH JH AO R AH T IY"),
  ("male", "M EY L"),
  ("mall", "M AO L"),
  ("man", "M AE N")
]

def WORD_EXCEPTIONS_5 : List (String × String) := [
  ("manage", "M AE N IH JH"),
  ("manager", "M AE N IH JH ER"),
  ("manner", "M AE N ER"),
  ("manufacturer", "M AE N Y AH F AE K CH ER ER"),
  ("many", "M EH N IY"),
  ("map", "M AE P"),
  ("march", "M AA R CH"),
  ("mark", "M AA R K"),
  ("market", "M AA R K AH T"),
  ("marriage", "M EH R IH JH"),
  ("marry", "M EH R IY"),
  ("mask", "M AE S K"),
  ("mass", "M AE S"),
  ("master", "M AE S T ER"),
  ("match", "M AE CH"),
  ("material", "M AH T IH R IY AH L"),
  ("math", "M AE TH"),
  ("matter", "M AE T ER"),
  ("maximum", "M AE K S AH M AH M"),
  ("maybe", "M EY B IY"),
  ("mayor", "M EY ER"),
  ("meal", "M IY L"),
  ("mean", "M IY N"),
  ("meaning", "M IY N IH NG"),
  ("means", "M IY N Z"),
  ("measure", "M EH ZH ER"),
  ("meat", "M IY T"),
  ("media", "M IY D IY AH"),
  ("medical", "M EH D IH K AH L"),
  ("medicine", "M EH D AH S AH N"),
  ("medium", "M IY D IY AH M"),
  ("meet", "M IY T"),
  ("meeting", "M IY T IH NG"),
  ("member", "M EH M B ER"),
  ("memory", "M EH M ER IY"),
  ("mental", "M EH N T AH L"),
  ("mention", "M EH N SH AH N"),
  ("menu", "M EH N Y UW"),
  ("mere", "M IH R"),
  ("message", "M EH S IH JH"),
  ("metal", "M EH T AH L"),
  ("method", "M EH TH AH D"),
  ("middle", "M IH D AH L"),
  ("mile", "M AY L"),
  ("military", "M IH L AH T EH R IY"),
  ("milk", "M IH L K"),
  ("mine", "M AY N"),
  ("mineral", "M IH N ER AH L"),
  ("minimum", "M IH N AH M AH M"),
  ("minister", "M IH N AH S T ER"),
  ("minor", "M AY N ER"),
  ("minority", "M AH N AO R AH T IY"),
  ("minute", "M IH N AH T"),
  ("mirror", "M IH R ER"),
  ("miss", "M IH S"),
  ("mission", "M IH SH AH N"),
  ("mistake", "M IH S T EY K"),
  ("mix", "M IH K S"),
  ("mixture", "M IH K S CH ER"),
  ("mobile", "M OW B AH L"),
  ("mode", "M OW D"),
  ("model", "M AA D AH L"),
  ("modern", "M AA D ER N"),
  ("modest", "M AA D AH S T"),
  ("mom", "M AA M"),
  ("moment", "M OW M AH N T"),
  ("money", "M AH N IY"),
  ("monitor", "M AA N AH T ER"),
  ("month", "M AH N TH"),
  ("mood", "M UW D"),
  ("moon", "M UW N"),
  ("moral", "M AO R AH L"),
  ("morning", "M AO R N IH NG"),
  ("mortgage", "M AO R G IH JH"),
  ("most", "M OW S T"),
  ("mother", "M AH DH ER"),
  ("motion", "M OW SH AH N"),
  ("motivation", "M OW T AH V EY SH AH N"),
  ("motor", "M OW T ER"),
  ("mountain", "M AW N T AH N"),
  ("mouse", "M AW S"),
  ("mouth", "M AW TH"),
  ("move", "M UW V"),
  ("movement", "M UW V M AH N T"),
  ("movie", "M UW V IY"),
  ("much", "M AH CH"),
  ("multiple", "M AH L T AH P AH L"),
  ("multiply", "M AH L T AH P L AY"),
  ("muscle", "M AH S AH L"),
  ("museum", "M Y UW Z IY AH M"),
  ("music", "M Y UW Z IH K"),
  ("musical", "M Y UW Z IH K AH L"),
  ("myself", "M AY S EH L F"),
  ("mystery", "M IH S T ER IY"),
  ("myth", "M IH TH"),
  ("nail", "N EY L"),
  ("narrow", "N EH R OW"),
  ("nation", "N EY SH AH N"),
  ("national", "N AE SH AH N AH L"),
  ("native", "N EY T IH V"),
  ("natural", "N AE CH ER AH L"),
  ("nature", "N EY CH ER"),
  ("near", "N IH R"),
  ("nearly", "N IH R L IY"),
  ("necessary", "N EH S AH S EH R IY"),
  ("neck", "N EH K"),
  ("negative", "N EH G AH T IH V"),
  ("neighbor", "N EY B ER"),
  ("neither", "N IY DH ER"),
  ("nervous", "N ER V AH S"),
  ("net", "N EH T"),
  ("network", "N EH T W ER K"),
  ("news", "N UW Z"),
  ("newspaper", "N UW Z P EY P ER"),
  ("next", "N EH K S T"),
  ("nice", "N AY S"),
  ("night", "N AY T"),
  ("nobody", "N OW B AA D IY"),
  ("noise", "N OY Z"),
  ("none", "N AH N"),
  ("nor", "N AO R"),
  ("normal", "N AO R M AH L"),
  ("north", "N AO R TH"),
  ("nose", "N OW Z"),
  ("note", "N OW T"),
  ("notice", "N OW T IH S"),
  ("novel", "N AA V AH L"),
  ("nowhere", "N OW W EH R"),
  ("nuclear", "N UW K L IY ER"),
  ("number", "N AH M B ER"),
  ("numerous", "N UW M ER AH S"),
  ("nurse", "N ER S"),
  ("nut", "N AH T"),
  ("object", "AA B JH EH K T"),
  ("objective", "AH B JH EH K T IH V"),
  ("obligation", "AA B L AH G EY SH AH N"),
  ("observation", "AA B Z ER V EY SH AH N"),
  ("observe", "AH B Z ER V"),
  ("obtain", "AH B T EY N"),
  ("obvious", "AA B V IY AH S"),
  ("occasion", "AH K EY ZH AH N"),
  ("occupation", "AA K Y AH P EY SH AH N"),
  ("occur", "AH K ER"),
  ("ocean", "OW SH AH N"),
  ("odd", "AA D"),
  ("off", "AO F"),
  ("offense", "AH F EH N S"),
  ("offer", "AO F ER"),
  ("office", "AO F AH S"),
  ("officer", "AO F AH S ER"),
  ("official", "AH F IH SH AH L"),
  ("oil", "OY L"),
  ("once", "W AH N S"),
  ("only", "OW N L IY"),
  ("onto", "AA N T UW"),
  ("operate", "AA P ER EY T"),
  ("operation", "AA P ER EY SH AH N"),
  ("opinion", "AH P IH N Y AH N"),
  ("opportunity", "AA P ER T UW N AH T IY"),
  ("oppose", "AH P OW Z"),
  ("option", "AA P SH AH N"),
  ("orange", "AO R AH N JH"),
  ("order", "AO R D ER"),
  ("ordinary", "AO R D AH N EH R IY"),
  ("organization", "AO R G AH N AH Z EY SH AH N"),
  ("organize", "AO R G AH N AY Z"),
  ("origin", "AO R AH JH AH N"),
  ("other", "AH DH ER"),
  ("otherwise", "AH DH ER W AY Z"),
  ("ought", "AO T"),
  ("ourselves", "AW R S EH L V Z"),
  ("out", "AW T"),
  ("outcome", "AW T K AH M"),
  ("outside", "AW T S AY D"),
  ("overall", "OW V ER AO L"),
  ("owner", "OW N ER"),
  ("pace", "P EY S"),
  ("pack", "P AE K"),
  ("package", "P AE K IH JH"),
  ("page", "P EY JH"),
  ("pain", "P EY N"),
  ("paint", "P EY N T"),
  ("painting", "P EY N T IH NG"),
  ("pair", "P EH R"),
  ("palace", "P AE L AH S"),
  ("pale", "P EY L"),
  ("palm", "P AA M"),
  ("pan", "P AE N"),
  ("panel", "P AE N AH L"),
  ("panic", "P AE N IH K"),
  ("paper", "P EY P ER"),
  ("parent", "P EH R AH N T"),
  ("park", "P AA R K"),
  ("particular", "P ER T IH K Y AH L ER"),
  ("partly", "P AA R T L IY"),
  ("partner", "P AA R T N ER"),
  ("party", "P AA R T IY"),
  ("pass", "P AE S"),
  ("passage", "P AE S IH JH"),
  ("passenger", "P AE S AH N JH ER"),
  ("passion", "P AE SH AH N"),
  ("past", "P AE S T"),
  ("path", "P AE TH"),
  ("patient", "P EY SH AH N T"),
  ("pattern", "P AE T ER N"),
  ("pause", "P AO Z"),
  ("pay", "P EY"),
  ("payment", "P EY M AH N T"),
  ("peace", "P IY S"),
  ("peak", "P IY K"),
  ("pedestrian", "P AH D EH S T R IY AH N"),
  ("pen", "P EH N"),
  ("penalty", "P EH N AH L T IY"),
  ("pencil", "P EH N S AH L"),
  ("pepper", "P EH P ER"),
  ("per", "P ER"),
  ("percent", "P ER S EH N T"),
  ("perfect", "P ER F EH K T"),
  ("perform", "P ER F AO R M"),
  ("performance", "P ER F AO R M AH N S"),
  ("perhaps", "P ER HH AE P S"),
  ("period", "P IH R IY AH D"),
  ("permanent", "P ER M AH N AH N T"),
  ("permission", "P ER M IH SH AH N"),
  ("person", "P ER S AH N"),
  ("personal", "P ER S AH N AH L"),
  ("personality", "P ER S AH N AE L AH T IY"),
  ("perspective", "P ER S P EH K T IH V"),
  ("persuade", "P ER S W EY D"),
  ("pet", "P EH T"),
  ("phase", "F EY Z"),
  ("phenomenon", "F AH N AA M AH N AA N"),
  ("philosophy", "F AH L AA S AH F IY"),
  ("phone", "F OW N"),
  ("photo", "F OW T OW"),
  ("phrase", "F R EY Z"),
  ("physical", "F IH Z IH K AH L"),
  ("piano", "P IY AE N OW"),
  ("pick", "P IH K"),
  ("picture", "P IH K CH ER"),
  ("piece", "P IY S"),
  ("pig", "P IH G"),
  ("pile", "P AY L"),
  ("pilot", "P AY L AH T"),
  ("pin", "P IH N"),
  ("pink", "P IH NG K"),
  ("pipe", "P AY P"),
  ("pitch", "P IH CH"),
  ("plain", "P L EY N"),
  ("plan", "P L AE N"),
  ("plane", "P L EY N"),
  ("planet", "P L AE N AH T"),
  ("plant", "P L AE N T"),
  ("plastic", "P L AE S T IH K"),
  ("plate", "P L EY T"),
  ("platform", "P L AE T F AO R M"),
  ("play", "P L EY"),
  ("player", "P L EY ER"),
  ("pleasant", "P L EH Z AH N T"),
  ("please", "P L IY Z"),
  ("pleasure", "P L EH ZH ER"),
  ("plenty", "P L EH N T IY"),
  ("plot", "P L AA T"),
  ("poem", "P OW AH M"),
  ("poet", "P OW AH T"),
  ("poetry", "P OW AH T R IY"),
  ("point", "P OY N T"),
  ("police", "P AH L IY S"),
  ("policy", "P AA L AH S IY"),
  ("political", "P AH L IH T AH K AH L"),
  ("politics", "P AA L AH T IH K S"),
  ("pollution", "P AH L UW SH AH N"),
  ("pool", "P UW L"),
  ("poor", "P UH R"),
  ("pop", "P AA P"),
  ("popular", "P AA P Y AH L ER"),
  ("population", "P AA P Y AH L EY SH AH N"),
  ("port", "P AO R T"),
  ("portion", "P AO R SH AH N"),
  ("portrait", "P AO R T R AH T"),
  ("position", "P AH Z IH SH AH N"),
  ("positive", "P AA Z AH T IH V"),
  ("possess", "P AH Z EH S"),
  ("possible", "P AA S AH B AH L"),
  ("possibly", "P AA S AH B L IY"),
  ("post", "P OW S T"),
  ("pot", "P AA T"),
  ("potato", "P AH T EY T OW"),
  ("potential", "P AH T EH N SH AH L"),
  ("pound", "P AW N D"),
  ("pour", "P AO R"),
  ("poverty", "P AA V ER T IY"),
  ("powder", "P AW D ER"),
  ("power", "P AW ER"),
  ("powerful", "P AW ER F AH L"),
  ("practical", "P R AE K T IH K AH L"),
  ("practice", "P R AE K T IH S"),
  ("praise", "P R EY Z"),
  ("pray", "P R EY"),
  ("prayer", "P R EH R")
]

def WORD_EXCEPTIONS_6 : List (String × String) := [
  ("predict", "P R IH D IH K T"),
  ("prefer", "P R IH F ER"),
  ("pregnancy", "P R EH G N AH N S IY"),
  ("pregnant", "P R EH G N AH N T"),
  ("preparation", "P R EH P ER EY SH AH N"),
  ("prepare", "P R IH P EH R"),
  ("presence", "P R EH Z AH N S"),
  ("present", "P R EH Z AH N T"),
  ("preserve", "P R IH Z ER V"),
  ("president", "P R EH Z AH D AH N T"),
  ("press", "P R EH S"),
  ("pressure", "P R EH SH ER"),
  ("pretend", "P R IH T EH N D"),
  ("pretty", "P R IH T IY"),
  ("prevent", "P R IH V EH N T"),
  ("previous", "P R IY V IY AH S"),
  ("price", "P R AY S"),
  ("pride", "P R AY D"),
  ("priest", "P R IY S T"),
  ("primarily", "P R AY M EH R AH L IY"),
  ("primary", "P R AY M EH R IY"),
  ("prime", "P R AY M"),
  ("prince", "P R IH N S"),
  ("princess", "P R IH N S EH S"),
  ("principal", "P R IH N S AH P AH L"),
  ("principle", "P R IH N S AH P AH L"),
  ("print", "P R IH N T"),
  ("prior", "P R AY ER"),
  ("priority", "P R AY AO R AH T IY"),
  ("prison", "P R IH Z AH N"),
  ("prisoner", "P R IH Z AH N ER"),
  ("private", "P R AY V AH T"),
  ("prize", "P R AY Z"),
  ("probably", "P R AA B AH B L IY"),
  ("problem", "P R AA B L AH M"),
  ("procedure", "P R AH S IY JH ER"),
  ("process", "P R AA S EH S"),
  ("produce", "P R AH D UW S"),
  ("product", "P R AA D AH K T"),
  ("production", "P R AH D AH K SH AH N"),
  ("profession", "P R AH F EH SH AH N"),
  ("professional", "P R AH F EH SH AH N AH L"),
  ("professor", "P R AH F EH S ER"),
  ("profile", "P R OW F AY L"),
  ("profit", "P R AA F IH T"),
  ("program", "P R OW G R AE M"),
  ("progress", "P R AA G R EH S"),
  ("project", "P R AA JH EH K T"),
  ("promise", "P R AA M IH S"),
  ("promote", "P R AH M OW T"),
  ("prompt", "P R AA M P T"),
  ("proof", "P R UW F"),
  ("proper", "P R AA P ER"),
  ("property", "P R AA P ER T IY"),
  ("proposal", "P R AH P OW Z AH L"),
  ("propose", "P R AH P OW Z"),
  ("protect", "P R AH T EH K T"),
  ("protection", "P R AH T EH K SH AH N"),
  ("protein", "P R OW T IY N"),
  ("protest", "P R AH T EH S T"),
  ("proud", "P R AW D"),
  ("prove", "P R UW V"),
  ("provide", "P R AH V AY D"),
  ("provider", "P R AH V AY D ER"),
  ("province", "P R AA V AH N S"),
  ("provision", "P R AH V IH ZH AH N"),
  ("psychological", "S AY K AH L AA JH IH K AH L"),
  ("public", "P AH B L IH K"),
  ("publication", "P AH B L IH K EY SH AH N"),
  ("publish", "P AH B L IH SH"),
  ("pull", "P UH L"),
  ("pulse", "P AH L S"),
  ("pump", "P AH M P"),
  ("punch", "P AH N CH"),
  ("punish", "P AH N IH SH"),
  ("punishment", "P AH N IH SH M AH N T"),
  ("purchase", "P ER CH AH S"),
  ("pure", "P Y UH R"),
  ("purpose", "P ER P AH S"),
  ("purse", "P ER S"),
  ("push", "P UH S"),
  ("put", "P UH T"),
  ("qualify", "K W AA L AH F AY"),
  ("quality", "K W AA L AH T IY"),
  ("quantity", "K W AA N T AH T IY"),
  ("quarter", "K W AO R T ER"),
  ("queen", "K W IY N"),
  ("question", "K W EH S CH AH N"),
  ("quick", "K W IH K"),
  ("quiet", "K W AY AH T"),
  ("quit", "K W IH T"),
  ("quite", "K W AY T"),
  ("quote", "K W OW T"),
  ("race", "R EY S"),
  ("radio", "R EY D IY OW"),
  ("rail", "R EY L"),
  ("railway", "R EY L W EY"),
  ("rain", "R EY N"),
  ("raise", "R EY Z"),
  ("range", "R EY N JH"),
  ("rank", "R AE NG K"),
  ("rapid", "R AE P IH D"),
  ("rare", "R EH R"),
  ("rate", "R EY T"),
  ("rather", "R AE DH ER"),
  ("ratio", "R EY SH IY OW"),
  ("raw", "R AO"),
  ("reach", "R IY CH"),
  ("react", "R IY AE K T"),
  ("reaction", "R IY AE K SH AH N"),
  ("read", "R IY D"),
  ("reader", "R IY D ER"),
  ("ready", "R EH D IY"),
  ("reality", "R IY AE L AH T IY"),
  ("realize", "R IY AH L AY Z"),
  ("reason", "R IY Z AH N"),
  ("reasonable", "R IY Z AH N AH B AH L"),
  ("recall", "R IH K AO L"),
  ("receive", "R IH S IY V"),
  ("recent", "R IY S AH N T"),
  ("recipe", "R EH S AH P IY"),
  ("recognize", "R EH K AH G N AY Z"),
  ("recommend", "R EH K AH M EH N D"),
  ("record", "R EH K ER D"),
  ("recover", "R IH K AH V ER"),
  ("red", "R EH D"),
  ("reduce", "R IH D UW S"),
  ("refer", "R IH F ER"),
  ("reference", "R EH F ER AH N S"),
  ("reflect", "R IH F L EH K T"),
  ("reform", "R IH F AO R M"),
  ("refresh", "R IH F R EH SH"),
  ("refrigerator", "R IH F R IH JH ER EY T ER"),
  ("refuse", "R IH F Y UW Z"),
  ("regard", "R IH G AA R D"),
  ("region", "R IY JH AH N"),
  ("register", "R EH JH IH S T ER"),
  ("regret", "R IH G R EH T"),
  ("regular", "R EH G Y AH L ER"),
  ("regulation", "R EH G Y AH L EY SH AH N"),
  ("reject", "R IH JH EH K T"),
  ("relate", "R IH L EY T"),
  ("relation", "R IH L EY SH AH N"),
  ("relationship", "R IH L EY SH AH N SH IH P"),
  ("relative", "R EH L AH T IH V"),
  ("relax", "R IH L AE K S"),
  ("release", "R IH L IY S"),
  ("relevant", "R EH L AH V AH N T"),
  ("relief", "R IH L IY F"),
  ("religion", "R IH L IH JH AH N"),
  ("religious", "R IH L IH JH AH S"),
  ("rely", "R IH L AY"),
  ("remain", "R IH M EY N"),
  ("remember", "R IH M EH M B ER"),
  ("remind", "R IH M AY N D"),
  ("remove", "R IH M UW V"),
  ("rent", "R EH N T"),
  ("repair", "R IH P EH R"),
  ("repeat", "R IH P IY T"),
  ("replace", "R IH P L EY S"),
  ("reply", "R IH P L AY"),
  ("report", "R IH P AO R T"),
  ("represent", "R EH P R IH Z EH N T"),
  ("republic", "R IH P AH B L IH K"),
  ("reputation", "R EH P Y AH T EY SH AH N"),
  ("request", "R IH K W EH S T"),
  ("require", "R IH K W AY ER"),
  ("rescue", "R EH S K Y UW"),
  ("research", "R IY S ER CH"),
  ("reserve", "R IH Z ER V"),
  ("resident", "R EH Z AH D AH N T"),
  ("resist", "R IH Z IH S T"),
  ("resolve", "R IH Z AA L V"),
  ("resort", "R IH Z AO R T"),
  ("resource", "R IY S AO R S"),
  ("respect", "R IH S P EH K T"),
  ("respond", "R IH S P AA N D"),
  ("response", "R IH S P AA N S"),
  ("responsibility", "R IH S P AA N S AH B IH L AH T IY"),
  ("rest", "R EH S T"),
  ("restaurant", "R EH S T R AH AA N T"),
  ("restore", "R IH S T AO R"),
  ("restrict", "R IH S T R IH K T"),
  ("result", "R IH Z AH L T"),
  ("retain", "R IH T EY N"),
  ("retire", "R IH T AY ER"),
  ("return", "R IH T ER N"),
  ("reveal", "R IH V IY L"),
  ("revenue", "R EH V AH N UW"),
  ("reverse", "R IH V ER S"),
  ("review", "R IH V Y UW"),
  ("revolution", "R EH V AH L UW SH AH N"),
  ("reward", "R IH W AO R D"),
  ("rhythm", "R IH DH AH M"),
  ("rice", "R AY S"),
  ("rich", "R IH CH"),
  ("ride", "R AY D"),
  ("ridiculous", "R IH D IH K Y AH L AH S"),
  ("ring", "R IH NG"),
  ("ripe", "R AY P"),
  ("rise", "R AY Z"),
  ("risk", "R IH S K"),
  ("river", "R IH V ER"),
  ("road", "R OW D"),
  ("rob", "R AA B"),
  ("rock", "R AA K"),
  ("role", "R OW L"),
  ("roll", "R OW L"),
  ("roof", "R UW F"),
  ("room", "R UW M"),
  ("root", "R UW T"),
  ("rope", "R OW P"),
  ("rose", "R OW Z"),
  ("rough", "R AH F"),
  ("round", "R AW N D"),
  ("route", "R UW T"),
  ("routine", "R UW T IY N"),
  ("row", "R OW"),
  ("royal", "R OY AH L"),
  ("rub", "R AH B"),
  ("rubber", "R AH B ER"),
  ("rude", "R UW D"),
  ("rule", "R UW L"),
  ("ruler", "R UW L ER"),
  ("run", "R AH N"),
  ("rural", "R UH R AH L"),
  ("rush", "R AH SH"),
  ("sad", "S AE D"),
  ("safe", "S EY F"),
  ("safety", "S EY F T IY"),
  ("sail", "S EY L"),
  ("sake", "S EY K"),
  ("salad", "S AE L AH D"),
  ("salary", "S AE L ER IY"),
  ("sale", "S EY L"),
  ("salt", "S AO L T"),
  ("sample", "S AE M P AH L"),
  ("sand", "S AE N D"),
  ("satellite", "S AE T AH L AY T"),
  ("satisfaction", "S AE T IH S F AE K SH AH N"),
  ("satisfy", "S AE T IH S F AY"),
  ("save", "S EY V"),
  ("say", "S EY"),
  ("scale", "S K EY L"),
  ("scan", "S K AE N"),
  ("scandal", "S K AE N D AH L"),
  ("scene", "S IY N"),
  ("schedule", "S K EH JH UW L"),
  ("scheme", "S K IY M"),
  ("school", "S K UW L"),
  ("science", "S AY AH N S"),
  ("scientific", "S AY AH N T IH F IH K"),
  ("scientist", "S AY AH N T IH S T"),
  ("score", "S K AO R"),
  ("scream", "S K R IY M"),
  ("screen", "S K R IY N"),
  ("screw", "S K R UW"),
  ("script", "S K R IH P T"),
  ("sea", "S IY"),
  ("search", "S ER CH"),
  ("season", "S IY Z AH N"),
  ("seat", "S IY T"),
  ("second", "S EH K AH N D"),
  ("secret", "S IY K R IH T"),
  ("secretary", "S EH K R AH T EH R IY"),
  ("section", "S EH K SH AH N"),
  ("sector", "S EH K T ER"),
  ("security", "S IH K Y UH R AH T IY"),
  ("seed", "S IY D"),
  ("seek", "S IY K"),
  ("segment", "S EH G M AH N T"),
  ("select", "S AH L EH K T"),
  ("selection", "S AH L EH K SH AH N"),
  ("self", "S EH L F"),
  ("sell", "S EH L"),
  ("senate", "S EH N AH T"),
  ("send", "S EH N D"),
  ("senior", "S IY N Y ER"),
  ("sense", "S EH N S"),
  ("sensitive", "S EH N S AH T IH V"),
  ("separate", "S EH P ER EY T"),
  ("sequence", "S IY K W AH N S"),
  ("series", "S IH R IY Z"),
  ("serious", "S IH R IY AH S"),
  ("servant", "S ER V AH N T"),
  ("serve", "S ER V"),
  ("service", "S ER V AH S"),
  ("session", "S EH SH AH N"),
  ("set", "S EH T"),
  ("settle", "S EH T AH L"),
  ("settlement", "S EH T AH L M AH N T"),
  ("several", "S EH V R AH L"),
  ("severe", "S AH V IH R"),
  ("sex", "S EH K S"),
  ("sexual", "S EH K SH UW AH L"),
  ("shade", "SH EY D"),
  ("shadow", "SH AE D OW"),
  ("shake", "SH EY K"),
  ("shape", "SH EY P"),
  ("share", "SH EH R")
]

def WORD_EXCEPTIONS_7 : List (String × String) := [
  ("sharp", "SH AA R P"),
  ("sheet", "SH IY T"),
  ("shelf", "SH EH L F"),
  ("shell", "SH EH L"),
  ("shelter", "SH EH L T ER"),
  ("shift", "SH IH F T"),
  ("shine", "SH AY N"),
  ("ship", "SH IH P"),
  ("shirt", "SH ER T"),
  ("shock", "SH AA K"),
  ("shoe", "SH UW"),
  ("shoot", "SH UW T"),
  ("shop", "SH AA P"),
  ("shopping", "SH AA P IH NG"),
  ("shore", "SH AO R"),
  ("short", "SH AO R T"),
  ("shot", "SH AA T"),
  ("shoulder", "SH OW L D ER"),
  ("shout", "SH AW T"),
  ("show", "SH OW"),
  ("shower", "SH AW ER"),
  ("shut", "SH AH T"),
  ("sick", "S IH K"),
  ("side", "S AY D"),
  ("sight", "S AY T"),
  ("sign", "S AY N"),
  ("signal", "S IH G N AH L"),
  ("signature", "S IH G N AH CH ER"),
  ("silence", "S AY L AH N S"),
  ("silent", "S AY L AH N T"),
  ("silk", "S IH L K"),
  ("silly", "S IH L IY"),
  ("silver", "S IH L V ER"),
  ("similar", "S IH M AH L ER"),
  ("simple", "S IH M P AH L"),
  ("simply", "S IH M P L IY"),
  ("since", "S IH N S"),
  ("sincere", "S IH N S IH R"),
  ("sing", "S IH NG"),
  ("singer", "S IH NG ER"),
  ("single", "S IH NG G AH L"),
  ("sink", "S IH NG K"),
  ("sir", "S ER"),
  ("sister", "S IH S T ER"),
  ("sit", "S IH T"),
  ("site", "S AY T"),
  ("situation", "S IH CH UW EY SH AH N"),
  ("size", "S AY Z"),
  ("skill", "S K IH L"),
  ("skin", "S K IH N"),
  ("sky", "S K AY"),
  ("slave", "S L EY V"),
  ("sleep", "S L IY P"),
  ("slice", "S L AY S"),
  ("slide", "S L AY D"),
  ("slight", "S L AY T"),
  ("slip", "S L IH P"),
  ("slope", "S L OW P"),
  ("slow", "S L OW"),
  ("smart", "S M AA R T"),
  ("smell", "S M EH L"),
  ("smile", "S M AY L"),
  ("smoke", "S M OW K"),
  ("smooth", "S M UW DH"),
  ("snake", "S N EY K"),
  ("snow", "S N OW"),
  ("soap", "S OW P"),
  ("social", "S OW SH AH L"),
  ("society", "S AH S AY AH T IY"),
  ("sock", "S AA K"),
  ("soft", "S AO F T"),
  ("software", "S AO F T W EH R"),
  ("soil", "S OY L"),
  ("solar", "S OW L ER"),
  ("soldier", "S OW L JH ER"),
  ("solid", "S AA L IH D"),
  ("solution", "S AH L UW SH AH N"),
  ("solve", "S AA L V"),
  ("somebody", "S AH M B AA D IY"),
  ("somehow", "S AH M HH AW"),
  ("someone", "S AH M W AH N"),
  ("sometimes", "S AH M T AY M Z"),
  ("somewhat", "S AH M W AH T"),
  ("somewhere", "S AH M W EH R"),
  ("son", "S AH N"),
  ("song", "S AO NG"),
  ("soon", "S UW N"),
  ("sorry", "S AA R IY"),
  ("sort", "S AO R T"),
  ("soul", "S OW L"),
  ("sound", "S AW N D"),
  ("soup", "S UW P"),
  ("source", "S AO R S"),
  ("south", "S AW TH"),
  ("southern", "S AH DH ER N"),
  ("space", "S P EY S"),
  ("speak", "S P IY K"),
  ("speaker", "S P IY K ER"),
  ("special", "S P EH SH AH L"),
  ("species", "S P IY SH IY Z"),
  ("specific", "S P AH S IH F IH K"),
  ("speech", "S P IY CH"),
  ("speed", "S P IY D"),
  ("spell", "S P EH L"),
  ("spend", "S P EH N D"),
  ("spirit", "S P IH R AH T"),
  ("spiritual", "S P IH R IH CH UW AH L"),
  ("split", "S P L IH T"),
  ("sport", "S P AO R T"),
  ("spot", "S P AA T"),
  ("spread", "S P R EH D"),
  ("spring", "S P R IH NG"),
  ("square", "S K W EH R"),
  ("stable", "S T EY B AH L"),
  ("staff", "S T AE F"),
  ("stage", "S T EY JH"),
  ("stair", "S T EH R"),
  ("stamp", "S T AE M P"),
  ("stand", "S T AE N D"),
  ("standard", "S T AE N D ER D"),
  ("star", "S T AA R"),
  ("stare", "S T EH R"),
  ("state", "S T EY T"),
  ("statement", "S T EY T M AH N T"),
  ("station", "S T EY SH AH N"),
  ("status", "S T EY T AH S"),
  ("stay", "S T EY"),
  ("steady", "S T EH D IY"),
  ("steal", "S T IY L"),
  ("steam", "S T IY M"),
  ("steel", "S T IY L"),
  ("steep", "S T IY P"),
  ("stem", "S T EH M"),
  ("step", "S T EH P"),
  ("stick", "S T IH K"),
  ("stock", "S T AA K"),
  ("stomach", "S T AH M AH K"),
  ("stone", "S T OW N"),
  ("stop", "S T AA P"),
  ("store", "S T AO R"),
  ("storm", "S T AO R M"),
  ("story", "S T AO R IY"),
  ("straight", "S T R EY T"),
  ("strange", "S T R EY N JH"),
  ("stranger", "S T R EY N JH ER"),
  ("strategy", "S T R AE T AH JH IY"),
  ("stream", "S T R IY M"),
  ("street", "S T R IY T"),
  ("strength", "S T R EH NG K TH"),
  ("stress", "S T R EH S"),
  ("stretch", "S T R EH CH"),
  ("strike", "S T R AY K"),
  ("string", "S T R IH NG"),
  ("strip", "S T R IH P"),
  ("stroke", "S T R OW K"),
  ("strong", "S T R AO NG"),
  ("structure", "S T R AH K CH ER"),
  ("struggle", "S T R AH G AH L"),
  ("student", "S T UW D AH N T"),
  ("studio", "S T UW D IY OW"),
  ("study", "S T AH D IY"),
  ("stuff", "S T AH F"),
  ("stupid", "S T UW P AH D"),
  ("style", "S T AY L"),
  ("subject", "S AH B JH EH K T"),
  ("substance", "S AH B S T AH N S"),
  ("succeed", "S AH K S IY D"),
  ("success", "S AH K S EH S"),
  ("successful", "S AH K S EH S F AH L"),
  ("such", "S AH CH"),
  ("sudden", "S AH D AH N"),
  ("suffer", "S AH F ER"),
  ("sugar", "SH UH G ER"),
  ("suggest", "S AH G JH EH S T"),
  ("suggestion", "S AH G JH EH S CH AH N"),
  ("suit", "S UW T"),
  ("summer", "S AH M ER"),
  ("sun", "S AH N"),
  ("supper", "S AH P ER"),
  ("supply", "S AH P L AY"),
  ("support", "S AH P AO R T"),
  ("suppose", "S AH P OW Z"),
  ("sure", "SH UH R"),
  ("surface", "S ER F AH S"),
  ("surprise", "S ER P R AY Z"),
  ("surround", "S ER AW N D"),
  ("survey", "S ER V EY"),
  ("survive", "S ER V AY V"),
  ("suspect", "S AH S P EH K T"),
  ("sweet", "S W IY T"),
  ("swim", "S W IH M"),
  ("switch", "S W IH CH"),
  ("symbol", "S IH M B AH L"),
  ("sympathy", "S IH M P AH TH IY"),
  ("system", "S IH S T AH M"),
  ("table", "T EY B AH L"),
  ("tail", "T EY L"),
  ("tale", "T EY L"),
  ("talent", "T AE L AH N T"),
  ("tall", "T AO L"),
  ("tank", "T AE NG K"),
  ("tape", "T EY P"),
  ("target", "T AA R G AH T"),
  ("task", "T AE S K"),
  ("taste", "T EY S T"),
  ("tax", "T AE K S"),
  ("tea", "T IY"),
  ("teach", "T IY CH"),
  ("teacher", "T IY CH ER"),
  ("team", "T IY M"),
  ("tear", "T IH R"),
  ("technical", "T EH K N IH K AH L"),
  ("technique", "T EH K N IY K"),
  ("technology", "T EH K N AA L AH JH IY"),
  ("telephone", "T EH L AH F OW N"),
  ("television", "T EH L AH V IH ZH AH N"),
  ("temperature", "T EH M P ER AH CH ER"),
  ("temporary", "T EH M P ER EH R IY"),
  ("tend", "T EH N D"),
  ("tendency", "T EH N D AH N S IY"),
  ("tennis", "T EH N IH S"),
  ("tension", "T EH N SH AH N"),
  ("tent", "T EH N T"),
  ("term", "T ER M"),
  ("terrible", "T EH R AH B AH L"),
  ("test", "T EH S T"),
  ("text", "T EH K S T"),
  ("thank", "TH AE NG K"),
  ("theater", "TH IY AH T ER"),
  ("theme", "TH IY M"),
  ("themselves", "DH EH M S EH L V Z"),
  ("theory", "TH IH R IY"),
  ("therapy", "TH EH R AH P IY"),
  ("therefore", "DH EH R F AO R"),
  ("thick", "TH IH K"),
  ("thin", "TH IH N"),
  ("thing", "TH IH NG"),
  ("third", "TH ER D"),
  ("thirsty", "TH ER S T IY"),
  ("thirteen", "TH ER T IY N"),
  ("thirty", "TH ER T IY"),
  ("though", "DH OW"),
  ("thought", "TH AO T"),
  ("thousand", "TH AW Z AH N D"),
  ("threat", "TH R EH T"),
  ("throat", "TH R OW T"),
  ("throughout", "TH R UW AW T"),
  ("throw", "TH R OW"),
  ("thus", "DH AH S"),
  ("ticket", "T IH K AH T"),
  ("tide", "T AY D"),
  ("tie", "T AY"),
  ("tight", "T AY T"),
  ("till", "T IH L"),
  ("tiny", "T AY N IY"),
  ("tip", "T IH P"),
  ("tire", "T AY ER"),
  ("title", "T AY T AH L"),
  ("today", "T AH D EY"),
  ("tomorrow", "T AH M AO R OW"),
  ("tone", "T OW N"),
  ("tongue", "T AH NG"),
  ("tonight", "T AH N AY T"),
  ("took", "T UH K"),
  ("tool", "T UW L"),
  ("tooth", "T UW TH"),
  ("top", "T AA P"),
  ("total", "T OW T AH L"),
  ("touch", "T AH CH"),
  ("tour", "T UH R"),
  ("tourist", "T UH R IH S T"),
  ("toward", "T AO R D"),
  ("towards", "T AO R D Z"),
  ("tower", "T AW ER"),
  ("town", "T AW N"),
  ("toy", "T OY"),
  ("track", "T R AE K"),
  ("trade", "T R EY D"),
  ("tradition", "T R AH D IH SH AH N"),
  ("traffic", "T R AE F IH K"),
  ("tragedy", "T R AE JH AH D IY"),
  ("trail", "T R EY L"),
  ("train", "T R EY N"),
  ("training", "T R EY N IH NG"),
  ("transfer", "T R AE N S F ER"),
  ("transform", "T R AE N S F AO R M"),
  ("transition", "T R AE N Z IH SH AH N"),
  ("translate", "T R AE N Z L EY T"),
  ("transport", "T R AE N S P AO R T"),
  ("travel", "T R AE V AH L"),
  ("treat", "T R IY T"),
  ("treatment", "T R IY T M AH N T"),
  ("tree", "T R IY"),
  ("trial", "T R AY AH L"),
  ("tribe", "T R AY B"),
  ("trick", "T R IH K"),
  ("trip", "T R IH P"),
  ("trouble", "T R AH B AH L"),
  ("truck", "T R AH K"),
  ("true", "T R UW")
]

def WORD_EXCEPTIONS_8 : List (String × String) := [
  ("trust", "T R AH S T"),
  ("truth", "T R UW TH"),
  ("tube", "T UW B"),
  ("tune", "T UW N"),
  ("tunnel", "T AH N AH L"),
  ("twelve", "T W EH L V"),
  ("twenty", "T W EH N T IY"),
  ("twice", "T W AY S"),
  ("twin", "T W IH N"),
  ("type", "T AY P"),
  ("typical", "T IH P IH K AH L"),
  ("ugly", "AH G L IY"),
  ("ultimate", "AH L T AH M AH T"),
  ("unable", "AH N EY B AH L"),
  ("uncle", "AH NG K AH L"),
  ("understand", "AH N D ER S T AE N D"),
  ("understanding", "AH N D ER S T AE N D IH NG"),
  ("undertake", "AH N D ER T EY K"),
  ("underwear", "AH N D ER W EH R"),
  ("undo", "AH N D UW"),
  ("unfortunately", "AH N F AO R CH AH N AH T L IY"),
  ("uniform", "Y UW N AH F AO R M"),
  ("union", "Y UW N Y AH N"),
  ("unique", "Y UW N IY K"),
  ("unit", "Y UW N IH T"),
  ("unite", "Y UW N AY T"),
  ("universal", "Y UW N AH V ER S AH L"),
  ("universe", "Y UW N AH V ER S"),
  ("university", "Y UW N AH V ER S AH T IY"),
  ("unknown", "AH N N OW N"),
  ("unless", "AH N L EH S"),
  ("unlike", "AH N L AY K"),
  ("unlikely", "AH N L AY K L IY"),
  ("until", "AH N T IH L"),
  ("unusual", "AH N Y UW ZH UW AH L"),
  ("up", "AH P"),
  ("upon", "AH P AA N"),
  ("upper", "AH P ER"),
  ("urban", "ER B AH N"),
  ("urge", "ER JH"),
  ("urgent", "ER JH AH N T"),
  ("used", "Y UW Z D"),
  ("useful", "Y UW S F AH L"),
  ("user", "Y UW Z ER"),
  ("usual", "Y UW ZH UW AH L"),
  ("usually", "Y UW ZH UW AH L IY"),
  ("vacation", "V EY K EY SH AH N"),
  ("valley", "V AE L IY"),
  ("valuable", "V AE L Y UW AH B AH L"),
  ("value", "V AE L Y UW"),
  ("variety", "V ER AY AH T IY"),
  ("various", "V EH R IY AH S"),
  ("vegetable", "V EH JH T AH B AH L"),
  ("vehicle", "V IY AH K AH L"),
  ("venture", "V EH N CH ER"),
  ("version", "V ER ZH AH N"),
  ("versus", "V ER S AH S"),
  ("vertical", "V ER T IH K AH L"),
  ("vessel", "V EH S AH L"),
  ("veteran", "V EH T ER AH N"),
  ("via", "V AY AH"),
  ("victim", "V IH K T IH M"),
  ("victory", "V IH K T ER IY"),
  ("video", "V IH D IY OW"),
  ("view", "V Y UW"),
  ("viewer", "V Y UW ER"),
  ("village", "V IH L IH JH"),
  ("violate", "V AY AH L EY T"),
  ("violence", "V AY AH L AH N S"),
  ("violent", "V AY AH L AH N T"),
  ("virtual", "V ER CH UW AH L"),
  ("virtue", "V ER CH UW"),
  ("virus", "V AY R AH S"),
  ("visible", "V IH Z AH B AH L"),
  ("vision", "V IH ZH AH N"),
  ("visit", "V IH Z AH T"),
  ("visitor", "V IH Z AH T ER"),
  ("visual", "V IH ZH UW AH L"),
  ("vital", "V AY T AH L"),
  ("voice", "V OY S"),
  ("volume", "V AA L Y UW M"),
  ("volunteer", "V AA L AH N T IH R"),
  ("vote", "V OW T"),
  ("wage", "W EY JH"),
  ("wait", "W EY T"),
  ("walk", "W AO K"),
  ("wall", "W AO L"),
  ("war", "W AO R"),
  ("warm", "W AO R M"),
  ("warn", "W AO R N"),
  ("wash", "W AA SH"),
  ("waste", "W EY S T"),
  ("watch", "W AA CH"),
  ("water", "W AO T ER"),
  ("wave", "W EY V"),
  ("weak", "W IY K"),
  ("wealth", "W EH L TH"),
  ("weapon", "W EH P AH N"),
  ("wear", "W EH R"),
  ("weather", "W EH DH ER"),
  ("web", "W EH B"),
  ("wedding", "W EH D IH NG"),
  ("week", "W IY K"),
  ("weekend", "W IY K EH N D"),
  ("weight", "W EY T"),
  ("welcome", "W EH L K AH M"),
  ("welfare", "W EH L F EH R"),
  ("west", "W EH S T"),
  ("western", "W EH S T ER N"),
  ("wet", "W EH T"),
  ("whatever", "W AH T EH V ER"),
  ("wheel", "W IY L"),
  ("whenever", "W EH N EH V ER"),
  ("whereas", "W EH R AE Z"),
  ("wherever", "W EH R EH V ER"),
  ("whether", "W EH DH ER"),
  ("while", "W AY L"),
  ("whilst", "W AY L S T"),
  ("whisper", "W IH S P ER"),
  ("white", "W AY T"),
  ("whole", "HH OW L"),
  ("whom", "HH UW M"),
  ("whose", "HH UW Z"),
  ("wide", "W AY D"),
  ("wife", "W AY F"),
  ("wild", "W AY L D"),
  ("win", "W IH N"),
  ("wind", "W IH N D"),
  ("window", "W IH N D OW"),
  ("wine", "W AY N"),
  ("wing", "W IH NG"),
  ("winner", "W IH N ER"),
  ("winter", "W IH N T ER"),
  ("wire", "W AY ER"),
  ("wise", "W AY Z"),
  ("wish", "W IH SH"),
  ("within", "W IH DH IH N"),
  ("witness", "W IH T N AH S"),
  ("woman", "W UH M AH N"),
  ("wonder", "W AH N D ER"),
  ("wonderful", "W AH N D ER F AH L"),
  ("wood", "W UH D"),
  ("wooden", "W UH D AH N"),
  ("word", "W ER D"),
  ("worker", "W ER K ER"),
  ("worry", "W ER IY"),
  ("worth", "W ER TH"),
  ("write", "R AY T"),
  ("writer", "R AY T ER"),
  ("wrong", "R AO NG"),
  ("yard", "Y AA R D"),
  ("yeah", "Y EH"),
  ("year", "Y IH R"),
  ("yell", "Y EH L"),
  ("yellow", "Y EH L OW"),
  ("yesterday", "Y EH S T ER D EY"),
  ("yet", "Y EH T"),
  ("yield", "Y IY L D"),
  ("young", "Y AH NG"),
  ("yourself", "Y AO R S EH L F"),
  ("youth", "Y UW TH"),
  ("zero", "Z IH R OW"),
  ("zone", "Z OW N")
]

def WORD_EXCEPTIONS : List (String × String) :=
  WORD_EXCEPTIONS_0 ++ WORD_EXCEPTIONS_1 ++ WORD_EXCEPTIONS_2 ++ WORD_EXCEPTIONS_3 ++ WORD_EXCEPTIONS_4 ++ WORD_EXCEPTIONS_5 ++ WORD_EXCEPTIONS_6 ++ WORD_EXCEPTIONS_7 ++ WORD_EXCEPTIONS_8
def SUFFIX_RULES : List (String × String) := [
  ("tion", "SH AH N"),
  ("sion", "ZH AH N"),
  ("ious", "IY AH S"),
  ("ous", "AH S"),
  ("ious", "IY AH S"),
  ("ment", "M AH N T"),
  ("ness", "N AH S"),
  ("less", "L AH S"),
  ("ful", "F UH L"),
  ("ly", "L IY"),
  ("ing", "IH NG"),
  ("ed", "D"),
  ("es", "IH Z"),
  ("er", "ER"),
  ("est", "AH S T"),
  ("tion", "SH AH N"),
  ("ty", "T IY"),
  ("ity", "IH T IY"),
  ("al", "AH L"),
  ("ial", "IY AH L"),
  ("ic", "IH K"),
  ("ical", "IH K AH L"),
  ("ive", "IH V"),
  ("ize", "AY Z"),
  ("ise", "AY Z"),
  ("ify", "IH F AY"),
  ("able", "AH B AH L"),
  ("ible", "IH B AH L"),
  ("age", "IH JH"),
  ("ate", "EY T"),
  ("ure", "Y UH R"),
  ("ance", "AH N S"),
  ("ence", "AH N S"),
  ("ism", "IH Z AH M"),
  ("ist", "AH S T"),
  ("ology", "AO L AH JH IY")
]
def VOWEL_MAP : List (String × String) := [
  ("ough", "AO F"),
  ("augh", "AO"),
  ("igh", "AY"),
  ("ight", "AY T"),
  ("ought", "AO T"),
  ("aughter", "AO T ER"),
  ("eight", "EY T"),
  ("eigh", "EY"),
  ("tion", "SH AH N"),
  ("sion", "ZH AH N"),
  ("ture", "CH ER"),
  ("sure", "SH ER"),
  ("our", "AW ER"),
  ("our", "AO R"),
  ("oo", "UW"),
  ("oe", "OW"),
  ("oa", "OW"),
  ("ou", "AW"),
  ("ow", "OW"),
  ("oi", "OY"),
  ("oy", "OY"),
  ("au", "AO"),
  ("aw", "AO"),
  ("ai", "EY"),
  ("ay", "EY"),
  ("ae", "EY"),
  ("ea", "IY"),
  ("ee", "IY"),
  ("ie", "IY"),
  ("ei", "IY"),
  ("eu", "Y UW"),
  ("ew", "Y UW"),
  ("ue", "Y UW"),
  ("ui", "W IH"),
  ("io", "IY OW"),
  ("ia", "IY AH")
]
def CONSONANT_MAP : List (String × String) := [
  ("tch", "CH"),
  ("dge", "JH"),
  ("sch", "S K"),
  ("spl", "S P L"),
  ("spr", "S P R"),
  ("str", "S T R"),
  ("scr", "S K R"),
  ("shr", "SH R"),
  ("thr", "TH R"),
  ("ph", "F"),
  ("gh", "G"),
  ("ch", "CH"),
  ("sh", "SH"),
  ("th", "TH"),
  ("wh", "W"),
  ("ck", "K"),
  ("ng", "NG"),
  ("qu", "K W"),
  ("x", "K S"),
  ("y", "Y"),
  ("b", "B"),
  ("c", "K"),
  ("d", "D"),
  ("f", "F"),
  ("g", "G"),
  ("h", "HH"),
  ("j", "JH"),
  ("k", "K"),
  ("l", "L"),
  ("m", "M"),
  ("n", "N"),
  ("p", "P"),
  ("r", "R"),
  ("s", "S"),
  ("t", "T"),
  ("v", "V"),
  ("w", "W"),
  ("z", "Z")
]
def PHONEME_TO_SHAPE : List (String × String) := [
  ("sil", "sil"),
  ("sp", "sil"),
  ("SIL", "sil"),
  ("P", "PP"),
  ("B", "BB"),
  ("M", "MM"),
  ("F", "FF"),
  ("V", "FF"),
  ("TH", "TH"),
  ("DH", "TH"),
  ("T", "DD"),
  ("D", "DD"),
  ("N", "NN"),
  ("S", "SS"),
  ("Z", "SS"),
  ("SH", "SH"),
  ("ZH", "SH"),
  ("CH", "CH"),
  ("JH", "CH"),
  ("L", "LL"),
  ("R", "RR"),
  ("K", "KK"),
  ("G", "KK"),
  ("NG", "NN_velar"),
  ("HH", "HH"),
  ("W", "WW"),
  ("Y", "YY"),
  ("IY", "IY"),
  ("IH", "IH"),
  ("EY", "EY"),
  ("EH", "EH"),
  ("AE", "AE"),
  ("AH", "AH"),
  ("AA", "AA"),
  ("ER", "ER"),
  ("AO", "AO"),
  ("OW", "OW"),
  ("UH", "UH"),
  ("UW", "UW"),
  ("AY", "AY"),
  ("AW", "AW"),
  ("OY", "OY")
]
def PHONEME_BASE_DURATION : List (String × ℚ) := [
  ("PP", 55),
  ("BB", 55),
  ("MM", 70),
  ("FF", 75),
  ("TH", 75),
  ("DD", 50),
  ("NN", 65),
  ("SS", 90),
  ("SH", 90),
  ("CH", 80),
  ("LL", 70),
  ("RR", 75),
  ("WW", 80),
  ("YY", 70),
  ("KK", 60),
  ("HH", 65),
  ("NN_velar", 70),
  ("IY", 100),
  ("IH", 82),
  ("EY", 108),
  ("EH", 88),
  ("AE", 92),
  ("AH", 80),
  ("AA", 112),
  ("ER", 90),
  ("AO", 108),
  ("OW", 112),
  ("UH", 82),
  ("UW", 108),
  ("AY", 118),
  ("AW", 118),
  ("OY", 118),
  ("sil", 120)
]
def VISEME_SHAPES : List (String × List (String × ℚ)) := [
  ("sil", [("jawOpen", 0.0), ("mouthFunnel", 0.0), ("mouthPucker", 0.0), ("mouthSmile_L", 0.04), ("mouthSmile_R", 0.04)]),
  ("PP", [("jawOpen", 0.03), ("mouthClose", 0.55), ("mouthPress_L", 0.65), ("mouthPress_R", 0.65), ("mouthRollLower", 0.15), ("cheekPuff", 0.08)]),
  ("BB", [("jawOpen", 0.04), ("mouthClose", 0.5), ("mouthPress_L", 0.6), ("mouthPress_R", 0.6), ("mouthRollLower", 0.12), ("cheekPuff", 0.1)]),
  ("MM", [("jawOpen", 0.0), ("mouthClose", 0.65), ("mouthPress_L", 0.55), ("mouthPress_R", 0.55), ("mouthRollLower", 0.18), ("cheekPuff", 0.06)]),
  ("FF", [("jawOpen", 0.12), ("mouthClose", 0.0), ("mouthLowerDown_L", 0.45), ("mouthLowerDown_R", 0.45), ("mouthPress_L", 0.25), ("mouthPress_R", 0.25), ("mouthShrugUpper", 0.12)]),
  ("TH", [("jawOpen", 0.18), ("mouthClose", 0.0), ("tongueOut", 0.45), ("mouthStretch_L", 0.3), ("mouthStretch_R", 0.3), ("mouthLowerDown_L", 0.2), ("mouthLowerDown_R", 0.2), ("mouthUpperUp_L", 0.1), ("mouthUpperUp_R", 0.1)]),
  ("DD", [("jawOpen", 0.22), ("mouthStretch_L", 0.18), ("mouthStretch_R", 0.18), ("mouthUpperUp_L", 0.08), ("mouthUpperUp_R", 0.08)]),
  ("NN", [("jawOpen", 0.18), ("mouthStretch_L", 0.15), ("mouthStretch_R", 0.15)]),
  ("SS", [("jawOpen", 0.10), ("mouthClose", 0.0), ("mouthStretch_L", 0.65), ("mouthStretch_R", 0.65), ("mouthSmile_L", 0.25), ("mouthSmile_R", 0.25), ("mouthUpperUp_L", 0.08), ("mouthUpperUp_R", 0.08)]),
  ("SH", [("jawOpen", 0.14), ("mouthClose", 0.0), ("mouthFunnel", 0.45), ("mouthPucker", 0.35), ("mouthStretch_L", 0.3), ("mouthStretch_R", 0.3)]),
  ("CH", [("jawOpen", 0.2), ("mouthFunnel", 0.4), ("mouthPucker", 0.3), ("mouthStretch_L", 0.35), ("mouthStretch_R", 0.35)]),
  ("LL", [("jawOpen", 0.28), ("mouthClose", 0.0), ("mouthStretch_L", 0.4), ("mouthStretch_R", 0.4), ("mouthSmile_L", 0.2), ("mouthSmile_R", 0.2), ("mouthLowerDown_L", 0.12), ("mouthLowerDown_R", 0.12)]),
  ("RR", [("jawOpen", 0.24), ("mouthFunnel", 0.35), ("mouthPucker", 0.28), ("mouthRollLower", 0.12), ("mouthShrugLower", 0.06)]),
  ("KK", [("jawOpen", 0.28), ("jawForward", 0.08), ("mouthShrugLower", 0.08)]),
  ("NN_velar", [("jawOpen", 0.18), ("jawForward", 0.06)]),
  ("HH", [("jawOpen", 0.26), ("mouthFunnel", 0.12), ("mouthShrugLower", 0.08)]),
  ("WW", [("jawOpen", 0.22), ("mouthClose", 0.0), ("mouthFunnel", 0.65), ("mouthPucker", 0.55), ("mouthRollUpper", 0.2), ("mouthRollLower", 0.18)]),
  ("YY", [("jawOpen", 0.28), ("mouthClose", 0.0), ("mouthSmile_L", 0.45), ("mouthSmile_R", 0.45), ("mouthStretch_L", 0.3), ("mouthStretch_R", 0.3)]),
  ("IY", [("jawOpen", 0.28), ("mouthClose", 0.0), ("mouthSmile_L", 0.65), ("mouthSmile_R", 0.65), ("mouthStretch_L", 0.35), ("mouthStretch_R", 0.35), ("mouthUpperUp_L", 0.12), ("mouthUpperUp_R", 0.12), ("cheekSquint_L", 0.12), ("cheekSquint_R", 0.12)]),
  ("IH", [("jawOpen", 0.34), ("mouthClose", 0.0), ("mouthSmile_L", 0.45), ("mouthSmile_R", 0.45), ("mouthStretch_L", 0.28), ("mouthStretch_R", 0.28), ("mouthUpperUp_L", 0.08), ("mouthUpperUp_R", 0.08)]),
  ("EY", [("jawOpen", 0.38), ("mouthClose", 0.0), ("mouthSmile_L", 0.52), ("mouthSmile_R", 0.52), ("mouthStretch_L", 0.32), ("mouthStretch_R", 0.32), ("mouthUpperUp_L", 0.1), ("mouthUpperUp_R", 0.1), ("mouthLowerDown_L", 0.08), ("mouthLowerDown_R", 0.08)]),
  ("EH", [("jawOpen", 0.44), ("mouthClose", 0.0), ("mouthSmile_L", 0.3), ("mouthSmile_R", 0.3), ("mouthStretch_L", 0.25), ("mouthStretch_R", 0.25), ("mouthLowerDown_L", 0.18), ("mouthLowerDown_R", 0.18)]),
  ("AE", [("jawOpen", 0.55), ("mouthClose", 0.0), ("mouthSmile_L", 0.28), ("mouthSmile_R", 0.28), ("mouthLowerDown_L", 0.3), ("mouthLowerDown_R", 0.3), ("mouthStretch_L", 0.15), ("mouthStretch_R", 0.15), ("mouthShrugLower", 0.08)]),
  ("AH", [("jawOpen", 0.5), ("mouthClose", 0.0), ("mouthFunnel", 0.18), ("mouthShrugLower", 0.1), ("mouthLowerDown_L", 0.2), ("mouthLowerDown_R", 0.2)]),
  ("AA", [("jawOpen", 0.68), ("mouthClose", 0.0), ("mouthFunnel", 0.22), ("mouthShrugLower", 0.15), ("mouthLowerDown_L", 0.32), ("mouthLowerDown_R", 0.32), ("mouthUpperUp_L", 0.06), ("mouthUpperUp_R", 0.06)]),
  ("ER", [("jawOpen", 0.38), ("mouthFunnel", 0.3), ("mouthPucker", 0.26), ("mouthRollLower", 0.08), ("mouthRollUpper", 0.06), ("mouthShrugLower", 0.06)]),
  ("AO", [("jawOpen", 0.52), ("mouthFunnel", 0.48), ("mouthPucker", 0.28), ("mouthRollLower", 0.08), ("mouthRollUpper", 0.06)]),
  ("OW", [("jawOpen", 0.42), ("mouthFunnel", 0.55), ("mouthPucker", 0.42), ("mouthRollUpper", 0.08), ("mouthRollLower", 0.06)]),
  ("UH", [("jawOpen", 0.36), ("mouthFunnel", 0.5), ("mouthPucker", 0.4), ("mouthRollUpper", 0.08), ("mouthShrugUpper", 0.06)]),
  ("UW", [("jawOpen", 0.3), ("mouthFunnel", 0.68), ("mouthPucker", 0.55), ("mouthRollUpper", 0.1), ("mouthRollLower", 0.07)]),
  ("AY", [("jawOpen", 0.52), ("mouthClose", 0.0), ("mouthSmile_L", 0.38), ("mouthSmile_R", 0.38), ("mouthLowerDown_L", 0.28), ("mouthLowerDown_R", 0.28), ("mouthShrugLower", 0.1)]),
  ("AW", [("jawOpen", 0.52), ("mouthClose", 0.0), ("mouthFunnel", 0.42), ("mouthPucker", 0.3), ("mouthLowerDown_L", 0.22), ("mouthLowerDown_R", 0.22)]),
  ("OY", [("jawOpen", 0.46), ("mouthClose", 0.0), ("mouthFunnel", 0.38), ("mouthPucker", 0.3), ("mouthSmile_L", 0.22), ("mouthSmile_R", 0.22)])
]
def MOUTH_MORPHS : List String := [
  "jawOpen", "jawForward", "jawLeft", "jawRight", "mouthClose", "mouthFunnel", "mouthPucker", "mouthLeft", "mouthRight", "mouthSmile_L", "mouthSmile_R", "mouthFrown_L", "mouthFrown_R", "mouthDimple_L", "mouthDimple_R", "mouthStretch_L", "mouthStretch_R", "mouthRollLower", "mouthRollUpper", "mouthShrugLower", "mouthShrugUpper", "mouthPress_L", "mouthPress_R", "mouthLowerDown_L", "mouthLowerDown_R", "mouthUpperUp_L", "mouthUpperUp_R", "cheekPuff", "tongueOut"
]
-- ===================================================================
-- § Grapheme-to-phoneme converter (avatar.js:1936-1994)
-- ===================================================================

/-- ASCII model of the JS toLowerCase used on words (only A-Z change). -/
def lowerChar (c : Char) : Char :=
  if c.isUpper then Char.ofNat (c.toNat + 32) else c

/-- word.toLowerCase().replace of every character outside a-z with nothing
(graphemeToPhonemes, avatar.js:1937). -/
def cleanWord (w : String) : String :=
  ⟨(w.data.map lowerChar).filter Char.isLower⟩

/-- p.replace of every digit 0-9 with nothing, as done before each
PHONEME_TO_SHAPE lookup (avatar.js:2028, 2034, 2518, 2524, 2540). -/
def stripDigits (p : String) : String :=
  ⟨p.data.filter (fun c => !c.isDigit)⟩

/-- The per-character fallback tables vmap and cmap of convertByRules
(avatar.js:1987-1989). -/
def VOWEL_FALLBACK : List (Char × String) :=
  [('a', "AE"), ('e', "EH"), ('i', "IH"), ('o', "AO"), ('u', "AH")]

def CONSONANT_FALLBACK : List (Char × String) :=
  [('b', "B"), ('c', "K"), ('d', "D"), ('f', "F"), ('g', "G"), ('h', "HH"),
   ('j', "JH"), ('k', "K"), ('l', "L"), ('m', "M"), ('n', "N"), ('p', "P"),
   ('q', "K"), ('r', "R"), ('s', "S"), ('t', "T"), ('v', "V"), ('w', "W"),
   ('x', "K"), ('y', "Y"), ('z', "Z")]

/-- vmap[ch] || cmap[ch] || AH (avatar.js:1990). -/
def fallbackChar (c : Char) : String :=
  match (VOWEL_FALLBACK.find? (fun p => p.1 == c)) with
  | some p => p.2
  | none =>
    match (CONSONANT_FALLBACK.find? (fun p => p.1 == c)) with
    | some p => p.2
    | none => "AH"

/-- Try each (cluster, phonemes) pair in order against the start of the
remaining characters (the two inner for-loops of convertByRules,
avatar.js:1962-1980); on the first match return the emitted phoneme symbols
and the number of characters consumed. -/
def tryClusters (maps : List (String × String)) (cs : List Char) :
    Option (List String × ℕ) :=
  maps.findSome? (fun cl =>
    if (cs.take cl.1.length).map lowerChar = cl.1.data then
      some (cl.2.splitOn " ", cl.1.length)
    else none)

/-- The scanning while-loop of convertByRules (avatar.js:1959-1982), with the
iteration count bounded by the word length (every cluster in VOWEL_MAP and
CONSONANT_MAP is non-empty, so each iteration consumes at least one
character and the fuel never runs out). -/
def convertScan : ℕ → List Char → List String
  | 0, _ => []
  | _, [] => []
  | fuel + 1, c :: cs =>
    match tryClusters VOWEL_MAP (c :: cs) with
    | some phk => phk.1 ++ convertScan fuel ((c :: cs).drop phk.2)
    | none =>
      match tryClusters CONSONANT_MAP (c :: cs) with
      | some phk => phk.1 ++ convertScan fuel ((c :: cs).drop phk.2)
      | none => convertScan fuel cs

/-- convertByRules (avatar.js:1956-1994). -/
def convertByRules (word : String) : List String :=
  let phones := convertScan word.length word.data
  if phones = [] then word.data.map fallbackChar else phones

/-- graphemeToPhonemes (avatar.js:1936-1954): exception lookup first, then the
first suffix rule whose pattern matches and leaves a non-empty stem, then
rule conversion. -/
def graphemeToPhonemes (word : String) : List String :=
  let lw := cleanWord word
  if lw = "" then []
  else
    match lookupStr WORD_EXCEPTIONS lw with
    | some v => v.splitOn " "
    | none =>
      match SUFFIX_RULES.find? (fun r =>
          lw.endsWith r.1 && !(lw.dropRight r.1.length == "")) with
      | some r =>
        let stem := lw.dropRight r.1.length
        let stemPhs :=
          match lookupStr WORD_EXCEPTIONS stem with
          | some sv => sv.splitOn " "
          | none => convertByRules stem
        stemPhs ++ r.2.splitOn " "
      | none => convertByRules lw

/-- Letters-or-apostrophe, the word-character class of the scanning regex in
textToPhonemeEvents (avatar.js:1999). -/
def isWordChar (c : Char) : Bool := c.isAlpha || c == Char.ofNat 39

/-- The regex scan of textToPhonemeEvents: the alternation of a run of word
characters versus a run of other non-space characters emits one match per
maximal word-character run, with its character offsets; other runs are
matched and discarded.  Fuel-bounded by the text length (each step consumes
at least one character). -/
def scanWords : ℕ → List Char → ℕ → List (String × ℕ × ℕ)
  | 0, _, _ => []
  | _, [], _ => []
  | fuel + 1, c :: cs, pos =>
    if isWordChar c then
      let run := (c :: cs).takeWhile isWordChar
      (⟨run⟩, pos, pos + run.length) ::
        scanWords fuel ((c :: cs).drop run.length) (pos + run.length)
    else
      scanWords fuel cs (pos + 1)

/-- textToPhonemeEvents (avatar.js:1996-2013). -/
def textToPhonemeEvents (text : String) : List WordEvent :=
  (scanWords text.length text.data 0).map (fun wse =>
    { word := wse.1
      phonemes := (graphemeToPhonemes wse.1).filter (fun p => !(p == ""))
      charStart := wse.2.1
      charEnd := wse.2.2 })
-- ===================================================================
-- § Phoneme shape and duration lookups (avatar.js:826-875)
-- ===================================================================

/-- PHONEME_TO_SHAPE lookup with digit stripping and default AH
(the expression used at avatar.js:2028, 2035, 2518, 2525, 2540). -/
def phonemeShape (p : String) : String :=
  (lookupStr PHONEME_TO_SHAPE (stripDigits p)).getD "AH"

/-- PHONEME_BASE_DURATION lookup with default 80
(avatar.js:2029, 2036, 2519, 2526, 2541). -/
def baseDuration (shapeKey : String) : ℚ :=
  (lookupStr PHONEME_BASE_DURATION shapeKey).getD 80

/-- estimateWordDuration (avatar.js:2538-2543); the same reduce is also the
inline totalUnits computation of buildTimeline (2027-2030) and
rebuildTimeline (2517-2520). -/
def estimateWordDuration (phonemes : List String) : ℚ :=
  phonemes.foldl (fun s p => s + baseDuration (phonemeShape p)) 0

-- ===================================================================
-- § Timeline builder (avatar.js:2020-2044 and 2471-2543)
-- ===================================================================

/-- The per-phoneme frame loop of rebuildTimeline (avatar.js:2522-2530):
each slice is floored at 28 ms and the cursor advances by the floored
duration. -/
def rebuildWordFrames (totalUnits wordDurationMs : ℚ) :
    List String → ℚ → List VisemeKeyframe
  | [], _ => []
  | p :: ps, t =>
    let shapeKey := phonemeShape p
    let dur := max 28 ((baseDuration shapeKey / totalUnits) * wordDurationMs)
    { timeMs := t, shapeKey := shapeKey, durationMs := dur } ::
      rebuildWordFrames totalUnits wordDurationMs ps (t + dur)

/-- The start/duration resolution of rebuildTimeline (avatar.js:2478-2513)
for word index wi: an exact boundary record if one exists (duration from the
next-higher logged index if any), else projection from the last appended
boundary record plus estimated durations of the words between its index and
wi, else pure estimation from the segment start. -/
def wordTiming (events : List WordEvent) (log : List BoundaryRecord)
    (wi : ℕ) : ℚ × ℚ :=
  let wev := events.getD wi default
  match log.find? (fun b => b.wordIdx == wi) with
  | some logged =>
    match log.find? (fun b => decide (wi < b.wordIdx)) with
    | some nextLogged => (logged.elapsedMs, nextLogged.elapsedMs - logged.elapsedMs)
    | none => (logged.elapsedMs, estimateWordDuration wev.phonemes)
  | none =>
    match log.getLast? with
    | some lastLog =>
      let offsetMs := ((List.range' lastLog.wordIdx (wi - lastLog.wordIdx)).map
        (fun j => if j < events.length
          then estimateWordDuration (events.getD j default).phonemes else 0)).sum
      (lastLog.elapsedMs + offsetMs, estimateWordDuration wev.phonemes)
    | none =>
      let offsetMs := ((List.range wi).map
        (fun j => if j < events.length
          then estimateWordDuration (events.getD j default).phonemes else 0)).sum
      (offsetMs, estimateWordDuration wev.phonemes)

/-- The frames one word contributes to the rebuilt timeline: nothing when its
phoneme list is empty (the continue at avatar.js:2476), else the per-phoneme
frames from its resolved start and duration. -/
def wordContribution (events : List WordEvent) (log : List BoundaryRecord)
    (wi : ℕ) : List VisemeKeyframe :=
  let wev := events.getD wi default
  if wev.phonemes = [] then []
  else
    let sd := wordTiming events log wi
    rebuildWordFrames (estimateWordDuration wev.phonemes) sd.2 wev.phonemes sd.1

/-- The final sort by timeMs (avatar.js:2042, 2533); the JS comparator sort is
stable on the evaluated timeMs keys, modelled by insertion sort. -/
def sortFrames (fs : List VisemeKeyframe) : List VisemeKeyframe :=
  List.insertionSort (fun a b => a.timeMs ≤ b.timeMs) fs

/-- rebuildTimeline (avatar.js:2471-2536), as a pure function of the word
phoneme events and the boundary log it reads. -/
def rebuildTimeline (events : List WordEvent) (log : List BoundaryRecord) :
    List VisemeKeyframe :=
  sortFrames (((List.range events.length).map (wordContribution events log)).flatten)

/-- Input rows of buildTimeline (avatar.js:2021): word events that already
carry wordStartMs and wordDurationMs. -/
structure TimedWordEvent where
  word : String
  phonemes : List String
  wordStartMs : ℚ
  wordDurationMs : ℚ
deriving Repr, DecidableEq, Inhabited

/-- The per-phoneme frame loop of buildTimeline (avatar.js:2032-2040):
durationMs is floored at 30, but the cursor advances by the unfloored
scaledDur. -/
def buildWordFrames (totalUnits wordDurationMs : ℚ) :
    List String → ℚ → List VisemeKeyframe
  | [], _ => []
  | p :: ps, t =>
    let shapeKey := phonemeShape p
    let scaledDur := (baseDuration shapeKey / totalUnits) * wordDurationMs
    { timeMs := t, shapeKey := shapeKey, durationMs := max 30 scaledDur } ::
      buildWordFrames totalUnits wordDurationMs ps (t + scaledDur)

/-- buildTimeline (avatar.js:2020-2044). -/
def buildTimeline (wordEvents : List TimedWordEvent) : List VisemeKeyframe :=
  sortFrames ((wordEvents.map (fun ev =>
    if ev.phonemes = [] then []
    else buildWordFrames (estimateWordDuration ev.phonemes) ev.wordDurationMs
      ev.phonemes ev.wordStartMs)).flatten)
-- ===================================================================
-- § Viseme blending and the safety clamp (applyBlendedViseme,
--   avatar.js:2224-2268)
-- ===================================================================

def AMPLITUDE_MULTIPLIER : ℚ := 1

/-- VISEME_SHAPES[k] || VISEME_SHAPES.sil (avatar.js:2225-2226). -/
def shapeOf (k : String) : List (String × ℚ) :=
  (lookupStr VISEME_SHAPES k).getD ((lookupStr VISEME_SHAPES "sil").getD [])

/-- targets[m] = (targets[m] || 0) + dv: update the entry if the key exists,
else append it (JS property creation preserves insertion order). -/
def bumpKey (ts : List (String × ℚ)) (m : String) (dv : ℚ) :
    List (String × ℚ) :=
  if ts.any (fun p => p.1 == m) then
    ts.map (fun p => if p.1 = m then (p.1, p.2 + dv) else p)
  else ts ++ [(m, dv)]

/-- The target-map construction of applyBlendedViseme (avatar.js:2228-2242):
every MOUTH_MORPHS channel defaults to 0, shape A is accumulated with weight
(1 - blendFactor) and shape B with weight blendFactor (shape keys outside
MOUTH_MORPHS are appended), then every entry is scaled by
amplitudeScale * AMPLITUDE_MULTIPLIER. -/
def blendTargets (shapeKeyA shapeKeyB : String)
    (blendFactor amplitudeScale : ℚ) : List (String × ℚ) :=
  let shapeA := shapeOf shapeKeyA
  let shapeB := shapeOf shapeKeyB
  let t0 := MOUTH_MORPHS.map (fun m => (m, (0 : ℚ)))
  let t1 := shapeA.foldl (fun ts mv => bumpKey ts mv.1 (mv.2 * (1 - blendFactor))) t0
  let t2 := shapeB.foldl (fun ts mv => bumpKey ts mv.1 (mv.2 * blendFactor)) t1
  t2.map (fun p => (p.1, p.2 * amplitudeScale * AMPLITUDE_MULTIPLIER))

/-- The morphs that raise the lower lip (avatar.js:2250). -/
def lowerLipRaisers : List String :=
  ["mouthClose", "mouthRollLower", "mouthPress_L", "mouthPress_R", "mouthShrugLower"]

/-- targets[m] || 0. -/
def weightOf (ts : List (String × ℚ)) (m : String) : ℚ :=
  ((ts.find? (fun p => p.1 == m)).map (fun p => p.2)).getD 0

/-- totalRaise accumulation over the raising morphs (avatar.js:2253-2254). -/
def totalRaise (ts : List (String × ℚ)) : ℚ :=
  lowerLipRaisers.foldl (fun s m => s + weightOf ts m) 0

/-- const maxRaise = Math.max(0, 1 - (jawAmt / 0.15)) (avatar.js:2259). -/
def maxRaise (jawAmt : ℚ) : ℚ := max 0 (1 - jawAmt / 0.15)

/-- The body of the proportional scale-down loop (avatar.js:2264-2266):
a raising morph with a non-zero (truthy) target is multiplied by the scale. -/
def clampEntry (scale : ℚ) (p : String × ℚ) : String × ℚ :=
  if p.1 ∈ lowerLipRaisers ∧ p.2 ≠ 0 then (p.1, p.2 * scale) else p

/-- The safety clamp of applyBlendedViseme (avatar.js:2244-2268). -/
def safetyClamp (ts : List (String × ℚ)) : List (String × ℚ) :=
  let jawAmt := weightOf ts "jawOpen"
  let tr := totalRaise ts
  let mr := maxRaise jawAmt
  if tr > mr ∧ mr ≥ 0 then ts.map (clampEntry (mr / tr)) else ts

/-- The complete target weight set applyBlendedViseme computes before the
smoothing write-out: blending, envelope/amplitude scaling, safety clamp. -/
def applyBlendedVisemeTargets (shapeKeyA shapeKeyB : String)
    (blendFactor amplitudeScale : ℚ) : List (String × ℚ) :=
  safetyClamp (blendTargets shapeKeyA shapeKeyB blendFactor amplitudeScale)

-- ===================================================================
-- § Playback tick (updateLipSync, avatar.js:2550-2608)
-- ===================================================================

/-- The while loop advancing lipTimelineIdx (avatar.js:2559-2562),
fuel-bounded by the timeline length (the index strictly increases, so the
fuel never runs out). -/
def advanceLoop (tl : List VisemeKeyframe) (elapsedMs : ℚ) :
    ℕ → ℕ → ℕ
  | 0, idx => idx
  | fuel + 1, idx =>
    if idx < tl.length - 1 ∧ (tl.getD (idx + 1) default).timeMs ≤ elapsedMs then
      advanceLoop tl elapsedMs fuel (idx + 1)
    else idx

def advanceIdx (tl : List VisemeKeyframe) (elapsedMs : ℚ) (idx : ℕ) : ℕ :=
  advanceLoop tl elapsedMs tl.length idx

/-- What a playback tick does with the mouth: either the generic no-frame
filler (avatar.js:2565-2572) or a call
applyBlendedViseme(shapeKeyA, shapeKeyB, blendFactor, amplitude). -/
inductive TickAction where
  | noFrame
  | applyViseme (shapeKeyA shapeKeyB : String) (blendFactor amplitude : ℚ)
deriving Repr, DecidableEq

/-- Frame selection, coarticulation blending and amplitude envelope of
updateLipSync (avatar.js:2556-2595), as the applyBlendedViseme call the tick
makes. -/
def updateLipSyncAction (tl : List VisemeKeyframe) (idx0 : ℕ)
    (elapsedMs : ℚ) : TickAction :=
  let idx := advanceIdx tl elapsedMs idx0
  if idx < tl.length then
    let frame := tl.getD idx default
    let progress := max 0 (min 1 ((elapsedMs - frame.timeMs) / frame.durationMs))
    let pair :=
      if progress > 0.65 ∧ idx + 1 < tl.length then
        ((tl.getD (idx + 1) default).shapeKey, (progress - 0.65) / 0.35)
      else (frame.shapeKey, 0)
    let amp :=
      if progress < 0.12 then progress / 0.12
      else if progress > 0.88 then (1 - progress) / 0.12
      else 1
    TickAction.applyViseme frame.shapeKey pair.1 pair.2 amp
  else TickAction.noFrame
-- ===================================================================
-- § Speech control flow (avatar.js:887-915, 2439-2445, 2691-2703,
--   2708-2809), modelled as explicit state transitions
-- ===================================================================

/-- cleanTextForSpeech (avatar.js:887-895): strip straight and curly
apostrophes, map every remaining non-alphanumeric character to a space,
collapse whitespace runs, trim. -/
def cleanTextForSpeech (text : String) : String :=
  let noApos := text.data.filter (fun c => !(c == Char.ofNat 39 || c == Char.ofNat 8217))
  let spaced := noApos.map (fun c => if c.isAlphanum then c else ' ')
  String.intercalate " "
    (((String.mk spaced).split (fun c => c == ' ')).filter (fun s => !(s == "")))

/-- The engine state touched by the speak/stop control flow: the speaking
flags, the segment cursor of the speakNextSegment closure, the two kinds of
pending deferred callbacks (the inter-segment pauseTimeout and the
end-of-utterance grace setTimeout), the lip-sync engine state reset by
initLipSync, and the mouth morph influences. -/
structure EngineState where
  isSpeaking : Bool
  currentState : String
  currentSegment : ℕ
  segments : List String
  pausePending : Bool
  gracePending : Bool
  activeSpeech : Bool
  smileActive : Bool
  mouth : List (String × ℚ)
  wordPhonemeEvents : List WordEvent
  wordBoundaryLog : List BoundaryRecord
  lipTimeline : List VisemeKeyframe
  lipTimelineIdx : ℕ
  pendingUtterance : Bool
deriving Repr, DecidableEq

/-- resetMouthInstant (avatar.js:2212-2214): every MOUTH_MORPHS channel is set
to 0 directly, with no smoothing. -/
def resetMouthInstant (s : EngineState) : EngineState :=
  { s with mouth := MOUTH_MORPHS.map (fun m => (m, (0 : ℚ))) }

/-- initLipSync (avatar.js:2439-2445). -/
def initLipSync (s : EngineState) (text : String) : EngineState :=
  { s with wordPhonemeEvents := textToPhonemeEvents text
           wordBoundaryLog := []
           lipTimeline := []
           lipTimelineIdx := 0 }

/-- stopSpeech (avatar.js:2691-2703): clear the pending pauseTimeout, cancel
the speech synthesis (dropping the queued utterance), drop the speaking
flags, and reset the mouth instantly. -/
def stopSpeech (s : EngineState) : EngineState :=
  resetMouthInstant
    { s with pausePending := false
             pendingUtterance := false
             isSpeaking := false
             currentState := "idle"
             activeSpeech := false
             smileActive := false }

/-- speakNextSegment (avatar.js:2725-2805): past the last segment, schedule
the all-done timeout; an empty cleaned segment is skipped (recursion bounded
by the segment count); otherwise initialise lip sync for the cleaned segment
text and hand a new utterance to the speech engine. -/
def speakNextSegment : ℕ → EngineState → EngineState
  | 0, s => s
  | fuel + 1, s =>
    if s.segments.length ≤ s.currentSegment then
      { s with gracePending := true }
    else
      let cleaned := cleanTextForSpeech (s.segments.getD s.currentSegment "")
      if cleaned.trim = "" then
        speakNextSegment fuel { s with currentSegment := s.currentSegment + 1 }
      else
        { initLipSync s cleaned with pendingUtterance := true }

/-- The onend handler of the utterance (avatar.js:2777-2797): advance the
segment cursor; with segments left, schedule speakNextSegment on a fresh
pauseTimeout — with no isSpeaking guard; otherwise schedule the guarded
end-of-speech grace timeout.  The speech engine also fires this for an
utterance cancelled by speechSynthesis.cancel(). -/
def utteranceOnEnd (s : EngineState) : EngineState :=
  let s1 := { s with currentSegment := s.currentSegment + 1 }
  if s1.currentSegment < s1.segments.length then
    { s1 with pausePending := true }
  else
    { s1 with gracePending := true }

/-- The pauseTimeout firing (scheduled at avatar.js:2782): runs
speakNextSegment. -/
def pauseTimerFire (s : EngineState) : EngineState :=
  if s.pausePending then
    speakNextSegment (s.segments.length + 1) { s with pausePending := false }
  else s

/-- The onstart handler of the utterance (avatar.js:2765-2775). -/
def utteranceOnStart (s : EngineState) : EngineState :=
  if s.pendingUtterance then
    { s with lipTimeline := rebuildTimeline s.wordPhonemeEvents s.wordBoundaryLog
             lipTimelineIdx := 0
             isSpeaking := true
             currentState := "speaking" }
  else s

/-- The end-of-speech grace timeout (avatar.js:2785-2795), guarded by
isSpeaking. -/
def graceTimerFire (s : EngineState) : EngineState :=
  if s.gracePending then
    if s.isSpeaking then
      { s with gracePending := false
               isSpeaking := false
               currentState := "idle"
               activeSpeech := false }
    else { s with gracePending := false }
  else s

/-- onWordBoundary (avatar.js:2451-2464) as a state transition: locate the
word containing the boundary character index, append a BoundaryRecord, and
rebuild the timeline. -/
def onWordBoundary (s : EngineState) (charIndex : ℕ) (elapsedMs : ℚ) :
    EngineState :=
  match (List.range s.wordPhonemeEvents.length).find? (fun i =>
      let ev := s.wordPhonemeEvents.getD i default
      decide (ev.charStart ≤ charIndex ∧ charIndex < ev.charEnd)) with
  | none => s
  | some wordIdx =>
    let log := s.wordBoundaryLog ++ [{ wordIdx := wordIdx, charIndex := charIndex, elapsedMs := elapsedMs }]
    { s with wordBoundaryLog := log
             lipTimeline := rebuildTimeline s.wordPhonemeEvents log }

-- ===================================================================
-- § Helper lemmas
-- ===================================================================

instance : IsTotal VisemeKeyframe (fun a b => a.timeMs ≤ b.timeMs) :=
  ⟨fun a b => le_total a.timeMs b.timeMs⟩

instance : IsTrans VisemeKeyframe (fun a b => a.timeMs ≤ b.timeMs) :=
  ⟨fun _ _ _ => le_trans⟩

lemma mem_sortFrames {f : VisemeKeyframe} {fs : List VisemeKeyframe} :
    f ∈ sortFrames fs ↔ f ∈ fs :=
  (List.perm_insertionSort _ fs).mem_iff

lemma sortFrames_sorted (fs : List VisemeKeyframe) :
    List.Pairwise (fun a b => a.timeMs ≤ b.timeMs) (sortFrames fs) :=
  List.sorted_insertionSort _ fs

lemma rebuildWordFrames_dur (u d : ℚ) :
    ∀ (ps : List String) (t : ℚ), ∀ f ∈ rebuildWordFrames u d ps t, 28 ≤ f.durationMs := by
  intro ps
  induction ps with
  | nil => intro t f h; simp [rebuildWordFrames] at h
  | cons p ps ih =>
    intro t f h
    simp only [rebuildWordFrames, List.mem_cons] at h
    rcases h with h | h
    · rw [h]; exact le_max_left _ _
    · exact ih _ f h

lemma buildWordFrames_dur (u d : ℚ) :
    ∀ (ps : List String) (t : ℚ), ∀ f ∈ buildWordFrames u d ps t, 30 ≤ f.durationMs := by
  intro ps
  induction ps with
  | nil => intro t f h; simp [buildWordFrames] at h
  | cons p ps ih =>
    intro t f h
    simp only [buildWordFrames, List.mem_cons] at h
    rcases h with h | h
    · rw [h]; exact le_max_left _ _
    · exact ih _ f h

-- ===================================================================
-- § Claim C2
-- ===================================================================

/-- C2 counterexample: the claim says every keyframe emitted by both
buildTimeline and rebuildTimeline has durationMs at least 30.  With two
boundary records only 10 ms apart, rebuildTimeline floors the phoneme slice
at 28 ms (avatar.js:2527 uses Math.max(28, ...)), so it emits a keyframe
with durationMs = 28 < 30. -/
theorem C2_counterexample :
    ∃ f ∈ rebuildTimeline
      [{ word := "a", phonemes := ["AH"], charStart := 0, charEnd := 1 },
       { word := "b", phonemes := ["AH"], charStart := 2, charEnd := 3 }]
      [{ wordIdx := 0, charIndex := 0, elapsedMs := 0 },
       { wordIdx := 1, charIndex := 2, elapsedMs := 10 }],
      f.durationMs < 30 := by with_unfolding_all decide

/-- C2 (amended): every keyframe emitted by buildTimeline has durationMs at
least 30, every keyframe emitted by rebuildTimeline has durationMs at least
28 (rebuildTimeline's floor constant is 28, not 30), and in both cases the
timeMs values are monotonically non-decreasing across the emitted
sequence. -/
theorem C2_duration_floor_and_monotone :
    (∀ tws, ∀ f ∈ buildTimeline tws, 30 ≤ f.durationMs) ∧
    (∀ events log, ∀ f ∈ rebuildTimeline events log, 28 ≤ f.durationMs) ∧
    (∀ tws, List.Pairwise (fun a b => a.timeMs ≤ b.timeMs) (buildTimeline tws)) ∧
    (∀ events log,
      List.Pairwise (fun a b => a.timeMs ≤ b.timeMs) (rebuildTimeline events log)) := by
  refine ⟨?_, ?_, fun tws => sortFrames_sorted _, fun events log => sortFrames_sorted _⟩
  · intro tws f hf
    rw [buildTimeline, mem_sortFrames] at hf
    obtain ⟨l, hl, hfl⟩ := List.mem_flatten.mp hf
    obtain ⟨ev, _, rfl⟩ := List.mem_map.mp hl
    by_cases hph : ev.phonemes = []
    · rw [if_pos hph] at hfl; exact absurd hfl (List.not_mem_nil f)
    · rw [if_neg hph] at hfl
      exact buildWordFrames_dur _ _ _ _ f hfl
  · intro events log f hf
    rw [rebuildTimeline, mem_sortFrames] at hf
    obtain ⟨l, hl, hfl⟩ := List.mem_flatten.mp hf
    obtain ⟨wi, _, rfl⟩ := List.mem_map.mp hl
    rw [wordContribution] at hfl
    by_cases hph : (events.getD wi default).phonemes = []
    · simp only [hph, if_pos rfl] at hfl  -- wait condition needs the let; adjust below
      exact absurd hfl (List.not_mem_nil f)
    · simp only [if_neg hph] at hfl
      exact rebuildWordFrames_dur _ _ _ _ f hfl

/-- Witness for C2: the amended theorem applied to a concrete one-word
buildTimeline input and the counterexample rebuild input. -/
theorem C2_witness :
    30 ≤ ({ timeMs := 0, shapeKey := "AH", durationMs := 100 } : VisemeKeyframe).durationMs ∧
    28 ≤ ({ timeMs := 10, shapeKey := "AH", durationMs := 80 } : VisemeKeyframe).durationMs ∧
    List.Pairwise (fun a b => a.timeMs ≤ b.timeMs)
      (buildTimeline [{ word := "a", phonemes := ["AH"], wordStartMs := 0, wordDurationMs := 100 }]) :=
  ⟨C2_duration_floor_and_monotone.1
      [{ word := "a", phonemes := ["AH"], wordStartMs := 0, wordDurationMs := 100 }]
      _ (by with_unfolding_all decide),
   C2_duration_floor_and_monotone.2.1
      [{ word := "a", phonemes := ["AH"], charStart := 0, charEnd := 1 },
       { word := "b", phonemes := ["AH"], charStart := 2, charEnd := 3 }]
      [{ wordIdx := 0, charIndex := 0, elapsedMs := 0 },
       { wordIdx := 1, charIndex := 2, elapsedMs := 10 }]
      _ (by with_unfolding_all decide),
   C2_duration_floor_and_monotone.2.2.1
      [{ word := "a", phonemes := ["AH"], wordStartMs := 0, wordDurationMs := 100 }]⟩

-- ===================================================================
-- § Claim C6
-- ===================================================================

/-- C6: for every input word whose lower-cased, letters-only form is a key
of the exception table, graphemeToPhonemes returns exactly the table's
phoneme sequence for that key — regardless of the case of the input word and
of any attached non-letter characters, since the lookup key is the cleaned
form of the word. -/
theorem C6_exception_lookup (w v : String)
    (h : lookupStr WORD_EXCEPTIONS (cleanWord w) = some v) :
    graphemeToPhonemes w = v.splitOn " " := by
  by_cases hempty : cleanWord w = ""
  · rw [hempty] at h
    have hnone : lookupStr WORD_EXCEPTIONS "" = none := by with_unfolding_all decide
    rw [hnone] at h
    exact absurd h (by simp)
  · simp only [graphemeToPhonemes, if_neg hempty, h]

/-- Witness for C6: the word Hello, (capitalised, with punctuation) cleans to
hello, a key of the exception table, and graphemeToPhonemes returns the
table's sequence. -/
theorem C6_witness :
    graphemeToPhonemes "Hello," = ("HH AH L OW").splitOn " " :=
  C6_exception_lookup "Hello," "HH AH L OW" (by with_unfolding_all decide)

-- ===================================================================
-- § Claim C9
-- ===================================================================

/-- C9: timeline rebuilding is deterministic — rebuildTimeline is a pure
function of the WordEvent list and the BoundaryRecord log it reads (the
embedding isolates exactly the state the JS function reads), so two rebuilds
over an identical event list and an identical, fully-populated boundary log
produce identical keyframe sequences, element for element. -/
theorem C9_rebuild_deterministic (e1 e2 : List WordEvent)
    (l1 l2 : List BoundaryRecord) (he : e1 = e2) (hl : l1 = l2)
    (_hfull : ∀ wi, wi < e1.length → ∃ b ∈ l1, b.wordIdx = wi) :
    rebuildTimeline e1 l1 = rebuildTimeline e2 l2 := by
  subst he; subst hl; rfl

/-- Witness for C9 at a concrete fully-populated log. -/
theorem C9_witness :
    rebuildTimeline [{ word := "a", phonemes := ["AH"], charStart := 0, charEnd := 1 }]
        [{ wordIdx := 0, charIndex := 0, elapsedMs := 5 }] =
      rebuildTimeline [{ word := "a", phonemes := ["AH"], charStart := 0, charEnd := 1 }]
        [{ wordIdx := 0, charIndex := 0, elapsedMs := 5 }] :=
  C9_rebuild_deterministic _ _ _ _ rfl rfl (by with_unfolding_all decide)

-- ===================================================================
-- § Claim C10
-- ===================================================================

/-- C10: an input word with no Latin letters cleans to the empty string, so
graphemeToPhonemes returns the empty phoneme sequence; a WordEvent whose
phoneme list is empty contributes no keyframes to the rebuilt timeline
(wordContribution is empty), and an empty phoneme list has estimated
duration 0, so such a word adds nothing when later word start times are
projected. -/
theorem C10_no_letter_words (w : String) (hw : ∀ c ∈ w.data, c.isAlpha = false)
    (events : List WordEvent) (log : List BoundaryRecord) (wi : ℕ)
    (hph : (events.getD wi default).phonemes = []) :
    graphemeToPhonemes w = [] ∧
    wordContribution events log wi = [] ∧
    estimateWordDuration [] = 0 := by
  refine ⟨?_, ?_, rfl⟩
  · have hclean : cleanWord w = "" := by
      have hfilter : (w.data.map lowerChar).filter Char.isLower = [] := by
        rw [List.filter_eq_nil_iff]
        intro c hc
        obtain ⟨c0, hc0, rfl⟩ := List.mem_map.mp hc
        have h0 := hw c0 hc0
        rw [Char.isAlpha, Bool.or_eq_false_iff] at h0
        simp [lowerChar, h0.1, h0.2]
      rw [cleanWord, hfilter]
    rw [graphemeToPhonemes, hclean, if_pos rfl]
  · rw [wordContribution]
    simp only [hph]
    rw [if_pos trivial]

/-- Witness for C10: the digits-only word 123 (which cleanTextForSpeech
preserves) yields no phonemes, and an event with an empty phoneme list
contributes no keyframes. -/
theorem C10_witness :
    graphemeToPhonemes "123" = [] ∧
    wordContribution [{ word := "123", phonemes := [], charStart := 0, charEnd := 3 }] [] 0 = [] ∧
    estimateWordDuration [] = 0 :=
  C10_no_letter_words "123" (by with_unfolding_all decide)
    [{ word := "123", phonemes := [], charStart := 0, charEnd := 3 }] [] 0 rfl

-- ===================================================================
-- § Claim C3
-- ===================================================================

/-- C3 counterexample: three one-phoneme words, one boundary record for word
index 2 at elapsedMs 640 and none for word 1.  The claim requires word 1's
whole estimated window to lie strictly before 640; but rebuildTimeline
projects an unlogged word from the last *appended* record — here the record
of the later word 2 — and the intervening-duration loop runs from that
record's index 2 up to the resolved word's index, which is an empty range,
so words 0 and 1 are both anchored at exactly 640.  Word 1 has a non-empty
phoneme list, so it does contribute keyframes, and every keyframe in the
rebuilt timeline sits at timeMs = 640: none of word 1's keyframes is
strictly before 640. -/
theorem C3_counterexample :
    rebuildTimeline
        [{ word := "a", phonemes := ["AH"], charStart := 0, charEnd := 1 },
         { word := "b", phonemes := ["AH"], charStart := 2, charEnd := 3 },
         { word := "c", phonemes := ["AH"], charStart := 4, charEnd := 5 }]
        [{ wordIdx := 2, charIndex := 4, elapsedMs := 640 }] =
      [{ timeMs := 640, shapeKey := "AH", durationMs := 80 },
       { timeMs := 640, shapeKey := "AH", durationMs := 80 },
       { timeMs := 640, shapeKey := "AH", durationMs := 80 }] ∧
    (([{ word := "a", phonemes := ["AH"], charStart := 0, charEnd := 1 },
      { word := "b", phonemes := ["AH"], charStart := 2, charEnd := 3 },
      { word := "c", phonemes := ["AH"], charStart := 4, charEnd := 5 }]
        : List WordEvent).getD 1 default).phonemes ≠ [] := by
  with_unfolding_all decide

/-- C3 (amended): with a single boundary record for word index 2 at elapsed
time t and no record for word 1, the rebuild anchors word 2's start exactly
at t; word 1, having no record, is projected forward from the most recently
*appended* boundary record — which is word 2's own record — plus the
estimated durations over the index range from 2 up to 1, an empty range, so
word 1's window also starts exactly at t (at, not strictly before, 640 in
the claimed scenario).  If word 1 has any phonemes, its first keyframe
therefore sits at timeMs = t. -/
theorem C3_projection_from_last_record (events : List WordEvent) (c : ℕ) (t : ℚ)
    (hph : (events.getD 1 default).phonemes ≠ []) :
    (wordTiming events [{ wordIdx := 2, charIndex := c, elapsedMs := t }] 2).1 = t ∧
    (wordTiming events [{ wordIdx := 2, charIndex := c, elapsedMs := t }] 1).1 = t ∧
    ∃ f rest, wordContribution events [{ wordIdx := 2, charIndex := c, elapsedMs := t }] 1 =
        f :: rest ∧ f.timeMs = t := by
  have h2 : (wordTiming events [{ wordIdx := 2, charIndex := c, elapsedMs := t }] 2).1 = t := by
    rw [wordTiming]
    simp [List.find?]
  have h1 : (wordTiming events [{ wordIdx := 2, charIndex := c, elapsedMs := t }] 1).1 = t := by
    rw [wordTiming]
    simp [List.find?, List.getLast?, List.range']
  refine ⟨h2, h1, ?_⟩
  obtain ⟨p, ps, hps⟩ := List.exists_cons_of_ne_nil hph
  rw [wordContribution]
  simp only [hps]
  rw [if_neg (by simp)]
  rw [rebuildWordFrames]
  exact ⟨_, _, rfl, h1⟩

/-- Witness for C3 (amended), at the claimed scenario input. -/
theorem C3_witness :
    (wordTiming
        [{ word := "a", phonemes := ["AH"], charStart := 0, charEnd := 1 },
         { word := "b", phonemes := ["AH"], charStart := 2, charEnd := 3 },
         { word := "c", phonemes := ["AH"], charStart := 4, charEnd := 5 }]
        [{ wordIdx := 2, charIndex := 4, elapsedMs := 640 }] 2).1 = 640 ∧
    (wordTiming
        [{ word := "a", phonemes := ["AH"], charStart := 0, charEnd := 1 },
         { word := "b", phonemes := ["AH"], charStart := 2, charEnd := 3 },
         { word := "c", phonemes := ["AH"], charStart := 4, charEnd := 5 }]
        [{ wordIdx := 2, charIndex := 4, elapsedMs := 640 }] 1).1 = 640 ∧
    ∃ f rest, wordContribution
        [{ word := "a", phonemes := ["AH"], charStart := 0, charEnd := 1 },
         { word := "b", phonemes := ["AH"], charStart := 2, charEnd := 3 },
         { word := "c", phonemes := ["AH"], charStart := 4, charEnd := 5 }]
        [{ wordIdx := 2, charIndex := 4, elapsedMs := 640 }] 1 = f :: rest ∧ f.timeMs = 640 :=
  C3_projection_from_last_record _ 4 640 (by with_unfolding_all decide)
-- ===================================================================
-- § Claim C4
-- ===================================================================

/-- A concrete engine state mid-way through segment 0 of the two-segment
utterance Hello, world! (as produced by the speak handler and the first
utterance's onstart). -/
def exStopState : EngineState :=
  { isSpeaking := true
    currentState := "speaking"
    currentSegment := 0
    segments := ["Hello,", " world!"]
    pausePending := false
    gracePending := false
    activeSpeech := true
    smileActive := false
    mouth := [("jawOpen", 0.4), ("mouthFunnel", 0.2)]
    wordPhonemeEvents := textToPhonemeEvents (cleanTextForSpeech "Hello,")
    wordBoundaryLog := []
    lipTimeline := rebuildTimeline (textToPhonemeEvents (cleanTextForSpeech "Hello,")) []
    lipTimelineIdx := 0
    pendingUtterance := true }

/-- C4: the stop request itself does reset every managed mouth channel to 0
instantly and leave the speaking state (first two conjuncts) — but the claim
that no deferred callback tied to the cancelled utterance subsequently
mutates engine state is violated: cancelling the synthesis fires the
cancelled utterance's onend handler, whose next-segment path
(avatar.js:2779-2782) has no isSpeaking guard; it advances the segment
cursor and schedules speakNextSegment on a fresh pauseTimeout that
stopSpeech cannot have cleared.  When that timer fires it re-initialises the
lip-sync state and speaks the next segment, whose onstart re-enters the
speaking state — resurrecting the utterance the user stopped. -/
theorem C4_stale_onend_resurrects_speaking :
    (stopSpeech exStopState).isSpeaking = false ∧
    (stopSpeech exStopState).mouth = MOUTH_MORPHS.map (fun m => (m, (0 : ℚ))) ∧
    (utteranceOnEnd (stopSpeech exStopState)).pausePending = true ∧
    (utteranceOnStart (pauseTimerFire (utteranceOnEnd (stopSpeech exStopState)))).isSpeaking
      = true ∧
    (utteranceOnStart (pauseTimerFire (utteranceOnEnd (stopSpeech exStopState)))).currentState
      = "speaking" := by
  with_unfolding_all decide

-- ===================================================================
-- § Safety clamp lemmas
-- ===================================================================

lemma clampEntry_fst (sc : ℚ) (p : String × ℚ) : (clampEntry sc p).1 = p.1 := by
  rw [clampEntry]
  split <;> rfl

lemma weightOf_cons (p : String × ℚ) (ts : List (String × ℚ)) (m : String) :
    weightOf (p :: ts) m = if p.1 = m then p.2 else weightOf ts m := by
  by_cases h : p.1 = m
  · simp [weightOf, List.find?, h]
  · have hb : (p.1 == m) = false := by simp [h]
    simp [weightOf, List.find?, hb, h]

lemma weightOf_map_clampEntry_mem (sc : ℚ) (ts : List (String × ℚ)) (m : String)
    (hm : m ∈ lowerLipRaisers) :
    weightOf (ts.map (clampEntry sc)) m = weightOf ts m * sc := by
  induction ts with
  | nil => simp [weightOf]
  | cons p ts ih =>
    rw [List.map_cons, weightOf_cons, weightOf_cons, clampEntry_fst]
    by_cases h : p.1 = m
    · rw [if_pos h, if_pos h, clampEntry]
      by_cases hz : p.2 = 0
      · rw [if_neg (fun hc => hc.2 hz)]
        rw [hz, zero_mul]
      · rw [if_pos ⟨by rw [h]; exact hm, hz⟩]
    · rw [if_neg h, if_neg h, ih]

lemma weightOf_map_clampEntry_not_mem (sc : ℚ) (ts : List (String × ℚ)) (m : String)
    (hm : m ∉ lowerLipRaisers) :
    weightOf (ts.map (clampEntry sc)) m = weightOf ts m := by
  induction ts with
  | nil => rfl
  | cons p ts ih =>
    rw [List.map_cons, weightOf_cons, weightOf_cons, clampEntry_fst]
    by_cases h : p.1 = m
    · rw [if_pos h, if_pos h, clampEntry, if_neg (fun hc => hm (h ▸ hc.1))]
    · rw [if_neg h, if_neg h, ih]

lemma totalRaise_eq (ts : List (String × ℚ)) :
    totalRaise ts =
      weightOf ts "mouthClose" + weightOf ts "mouthRollLower" +
      weightOf ts "mouthPress_L" + weightOf ts "mouthPress_R" +
      weightOf ts "mouthShrugLower" := by
  simp [totalRaise, lowerLipRaisers, List.foldl]

lemma totalRaise_map_clampEntry (sc : ℚ) (ts : List (String × ℚ)) :
    totalRaise (ts.map (clampEntry sc)) = totalRaise ts * sc := by
  rw [totalRaise_eq, totalRaise_eq,
    weightOf_map_clampEntry_mem sc ts "mouthClose" (by decide),
    weightOf_map_clampEntry_mem sc ts "mouthRollLower" (by decide),
    weightOf_map_clampEntry_mem sc ts "mouthPress_L" (by decide),
    weightOf_map_clampEntry_mem sc ts "mouthPress_R" (by decide),
    weightOf_map_clampEntry_mem sc ts "mouthShrugLower" (by decide)]
  ring

lemma maxRaise_nonneg (j : ℚ) : 0 ≤ maxRaise j := le_max_left 0 _

lemma weightOf_safetyClamp_jaw (ts : List (String × ℚ)) :
    weightOf (safetyClamp ts) "jawOpen" = weightOf ts "jawOpen" := by
  rw [safetyClamp]
  split
  · exact weightOf_map_clampEntry_not_mem _ ts _ (by decide)
  · rfl

lemma totalRaise_safetyClamp (ts : List (String × ℚ)) :
    totalRaise (safetyClamp ts) =
      min (totalRaise ts) (maxRaise (weightOf ts "jawOpen")) := by
  rw [safetyClamp]
  by_cases h : totalRaise ts > maxRaise (weightOf ts "jawOpen")
  · rw [if_pos ⟨h, maxRaise_nonneg _⟩, totalRaise_map_clampEntry]
    have hne : totalRaise ts ≠ 0 :=
      ne_of_gt (lt_of_le_of_lt (maxRaise_nonneg _) h)
    rw [mul_comm, div_mul_cancel₀ _ hne, min_eq_right (le_of_lt h)]
  · rw [if_neg (fun hc => h hc.1), min_eq_left (not_lt.mp h)]

-- ===================================================================
-- § Claim C7
-- ===================================================================

/-- C7: the safety clamp is idempotent.  A target weight set whose summed
lip-raising weight already satisfies the jaw-dependent cap is left unchanged
(the clamp's condition does not fire), and re-applying the clamp to any
clamped weight set is a no-op, since the clamped sum equals the minimum of
the raw sum and the cap, and the clamp does not move the jawOpen channel. -/
theorem C7_safetyClamp_idempotent (ts : List (String × ℚ)) :
    (totalRaise ts ≤ maxRaise (weightOf ts "jawOpen") → safetyClamp ts = ts) ∧
    safetyClamp (safetyClamp ts) = safetyClamp ts := by
  have hcomp : ∀ us : List (String × ℚ),
      totalRaise us ≤ maxRaise (weightOf us "jawOpen") → safetyClamp us = us := by
    intro us h
    rw [safetyClamp, if_neg (fun hc => absurd hc.1 (not_lt.mpr h))]
  refine ⟨hcomp ts, ?_⟩
  apply hcomp
  rw [totalRaise_safetyClamp, weightOf_safetyClamp_jaw]
  exact min_le_right _ _

/-- Witness for C7 at concrete weight sets: a compliant set is unchanged,
and double application equals single application on a violating set. -/
theorem C7_witness :
    safetyClamp [("jawOpen", 0.5), ("mouthClose", 0)] =
      [("jawOpen", 0.5), ("mouthClose", 0)] ∧
    safetyClamp (safetyClamp [("jawOpen", 0.5), ("mouthClose", 0.3)]) =
      safetyClamp [("jawOpen", 0.5), ("mouthClose", 0.3)] :=
  ⟨(C7_safetyClamp_idempotent [("jawOpen", 0.5), ("mouthClose", 0)]).1
      (by with_unfolding_all decide),
   (C7_safetyClamp_idempotent [("jawOpen", 0.5), ("mouthClose", 0.3)]).2⟩

-- ===================================================================
-- § Nonnegativity of blended targets
-- ===================================================================

lemma lookupStr_mem {α : Type} {tbl : List (String × α)} {k : String} {v : α}
    (h : lookupStr tbl k = some v) : ∃ k2, (k2, v) ∈ tbl := by
  rw [lookupStr] at h
  cases hf : tbl.find? (fun p => p.1 == k) with
  | none => rw [hf] at h; exact absurd h (by simp)
  | some p =>
    rw [hf] at h
    simp only [Option.map_some', Option.some.injEq] at h
    refine ⟨p.1, ?_⟩
    have hmem := List.mem_of_find?_eq_some hf
    rw [← h]
    exact hmem

lemma visemeShapes_nonneg :
    ∀ s ∈ VISEME_SHAPES, ∀ mv ∈ s.2, 0 ≤ mv.2 := by
  with_unfolding_all decide

lemma shapeOf_nonneg (k : String) : ∀ mv ∈ shapeOf k, 0 ≤ mv.2 := by
  intro mv hmv
  rw [shapeOf] at hmv
  cases hfind : lookupStr VISEME_SHAPES k with
  | some v =>
    rw [hfind, Option.getD_some] at hmv
    obtain ⟨k2, hk2⟩ := lookupStr_mem hfind
    exact visemeShapes_nonneg (k2, v) hk2 mv hmv
  | none =>
    rw [hfind, Option.getD_none] at hmv
    exact (by with_unfolding_all decide :
      ∀ mv2 ∈ (lookupStr VISEME_SHAPES "sil").getD ([] : List (String × ℚ)), 0 ≤ mv2.2) mv hmv

lemma bumpKey_nonneg {ts : List (String × ℚ)} {m : String} {dv : ℚ}
    (hts : ∀ p ∈ ts, 0 ≤ p.2) (hdv : 0 ≤ dv) :
    ∀ p ∈ bumpKey ts m dv, 0 ≤ p.2 := by
  intro p hp
  rw [bumpKey] at hp
  split at hp
  · obtain ⟨q, hq, rfl⟩ := List.mem_map.mp hp
    by_cases h : q.1 = m
    · simp only [if_pos h]
      exact add_nonneg (hts q hq) hdv
    · simp only [if_neg h]
      exact hts q hq
  · rcases List.mem_append.mp hp with h | h
    · exact hts p h
    · rw [List.mem_singleton.mp h]
      exact hdv

lemma foldl_bumpKey_nonneg (c : ℚ) :
    ∀ shape : List (String × ℚ), (∀ mv ∈ shape, 0 ≤ mv.2 * c) →
      ∀ ts : List (String × ℚ), (∀ p ∈ ts, 0 ≤ p.2) →
      ∀ p ∈ shape.foldl (fun ts2 mv => bumpKey ts2 mv.1 (mv.2 * c)) ts, 0 ≤ p.2
  | [], _, ts, hts => by simpa using hts
  | mv :: shape, hshape, ts, hts => by
    simp only [List.foldl_cons]
    exact foldl_bumpKey_nonneg c shape
      (fun q hq => hshape q (List.mem_cons_of_mem _ hq))
      _ (bumpKey_nonneg hts (hshape mv (List.mem_cons_self _ _)))

lemma blendTargets_nonneg (shapeKeyA shapeKeyB : String) (bf amp : ℚ)
    (hb0 : 0 ≤ bf) (hb1 : bf ≤ 1) (ha : 0 ≤ amp) :
    ∀ p ∈ blendTargets shapeKeyA shapeKeyB bf amp, 0 ≤ p.2 := by
  intro p hp
  rw [blendTargets] at hp
  obtain ⟨q, hq, rfl⟩ := List.mem_map.mp hp
  have h2 := foldl_bumpKey_nonneg bf (shapeOf shapeKeyB)
    (fun mv hmv => mul_nonneg (shapeOf_nonneg shapeKeyB mv hmv) hb0)
    ((shapeOf shapeKeyA).foldl
      (fun ts2 mv => bumpKey ts2 mv.1 (mv.2 * (1 - bf)))
      (MOUTH_MORPHS.map (fun m => (m, (0 : ℚ)))))
    (foldl_bumpKey_nonneg (1 - bf) (shapeOf shapeKeyA)
      (fun mv hmv => mul_nonneg (shapeOf_nonneg shapeKeyA mv hmv) (by linarith))
      (MOUTH_MORPHS.map (fun m => (m, (0 : ℚ))))
      (by
        intro r hr
        obtain ⟨m, _, rfl⟩ := List.mem_map.mp hr
        exact le_refl 0))
  exact mul_nonneg (mul_nonneg (h2 q hq) ha) (by norm_num [AMPLITUDE_MULTIPLIER])

lemma weightOf_nonneg {ts : List (String × ℚ)}
    (hts : ∀ p ∈ ts, 0 ≤ p.2) (m : String) : 0 ≤ weightOf ts m := by
  rw [weightOf]
  cases hf : ts.find? (fun p => p.1 == m) with
  | none => simp
  | some p =>
    simp only [Option.map_some', Option.getD_some]
    exact hts p (List.mem_of_find?_eq_some hf)

lemma totalRaise_nonneg {ts : List (String × ℚ)}
    (hts : ∀ p ∈ ts, 0 ≤ p.2) : 0 ≤ totalRaise ts := by
  rw [totalRaise_eq]
  have h1 := weightOf_nonneg hts "mouthClose"
  have h2 := weightOf_nonneg hts "mouthRollLower"
  have h3 := weightOf_nonneg hts "mouthPress_L"
  have h4 := weightOf_nonneg hts "mouthPress_R"
  have h5 := weightOf_nonneg hts "mouthShrugLower"
  linarith

-- ===================================================================
-- § Claim C1
-- ===================================================================

/-- C1: for every target weight set produced by applyBlendedViseme after
envelope scaling and the safety clamp (with a blend factor in [0,1] and a
nonnegative amplitude, as the playback tick supplies), if the jawOpen target
is at least 0.15 then the summed lip-raising targets are exactly 0, and in
general the summed lip-raising targets never exceed the permitted maximum
max(0, 1 - jawOpen / 0.15), which decreases linearly from 1 at jaw closed to
0 at jawOpen = 0.15. -/
theorem C1_lip_raise_invariant (shapeKeyA shapeKeyB : String)
    (blendFactor amplitudeScale : ℚ)
    (hb0 : 0 ≤ blendFactor) (hb1 : blendFactor ≤ 1) (ha : 0 ≤ amplitudeScale) :
    (0.15 ≤ weightOf (applyBlendedVisemeTargets shapeKeyA shapeKeyB blendFactor amplitudeScale)
        "jawOpen" →
      totalRaise (applyBlendedVisemeTargets shapeKeyA shapeKeyB blendFactor amplitudeScale) = 0) ∧
    totalRaise (applyBlendedVisemeTargets shapeKeyA shapeKeyB blendFactor amplitudeScale) ≤
      maxRaise (weightOf (applyBlendedVisemeTargets shapeKeyA shapeKeyB blendFactor amplitudeScale)
        "jawOpen") := by
  rw [applyBlendedVisemeTargets]
  have hnn := blendTargets_nonneg shapeKeyA shapeKeyB blendFactor amplitudeScale hb0 hb1 ha
  have htr0 : 0 ≤ totalRaise (blendTargets shapeKeyA shapeKeyB blendFactor amplitudeScale) :=
    totalRaise_nonneg hnn
  rw [totalRaise_safetyClamp, weightOf_safetyClamp_jaw]
  constructor
  · intro h015
    have hmr : maxRaise (weightOf (blendTargets shapeKeyA shapeKeyB blendFactor amplitudeScale)
        "jawOpen") = 0 := by
      rw [maxRaise, max_eq_left]
      have hd : (1 : ℚ) ≤ weightOf (blendTargets shapeKeyA shapeKeyB blendFactor amplitudeScale)
          "jawOpen" / 0.15 := by
        rw [le_div_iff₀ (by norm_num)]
        linarith
      linarith
    rw [hmr]
    exact min_eq_right htr0
  · exact min_le_right _ _

/-- Witness for C1 at a concrete blend (open-jaw AA into closed-lips MM at
blend factor one half, full amplitude): the jaw target is 0.34 ≥ 0.15 and
the clamped lip-raising sum is 0. -/
theorem C1_witness :
    (0.15 ≤ weightOf (applyBlendedVisemeTargets "AA" "MM" (1/2) 1) "jawOpen" →
      totalRaise (applyBlendedVisemeTargets "AA" "MM" (1/2) 1) = 0) ∧
    totalRaise (applyBlendedVisemeTargets "AA" "MM" (1/2) 1) ≤
      maxRaise (weightOf (applyBlendedVisemeTargets "AA" "MM" (1/2) 1) "jawOpen") :=
  C1_lip_raise_invariant "AA" "MM" (1/2) 1
    (by norm_num) (by norm_num) (by norm_num)

-- ===================================================================
-- § Claim C5
-- ===================================================================

lemma rebuildWordFrames_cons (u d : ℚ) (p : String) (ps : List String) (t : ℚ) :
    rebuildWordFrames u d (p :: ps) t =
      { timeMs := t, shapeKey := phonemeShape p,
        durationMs := max 28 (baseDuration (phonemeShape p) / u * d) } ::
        rebuildWordFrames u d ps (t + max 28 (baseDuration (phonemeShape p) / u * d)) := by
  rw [rebuildWordFrames]

/-- C5: with an empty boundary log, rebuildTimeline still covers every word
that has a non-empty phoneme list: the word's resolved start time is the sum
of the estimated durations of all preceding words (0 for the first word),
and the rebuilt timeline contains that word's first keyframe at exactly that
start time. -/
theorem C5_estimates_from_zero (events : List WordEvent) (wi : ℕ)
    (hwi : wi < events.length)
    (hph : (events.getD wi default).phonemes ≠ []) :
    (wordTiming events [] wi).1 =
      ((List.range wi).map
        (fun j => estimateWordDuration (events.getD j default).phonemes)).sum ∧
    ∃ f ∈ rebuildTimeline events [], f.timeMs =
      ((List.range wi).map
        (fun j => estimateWordDuration (events.getD j default).phonemes)).sum := by
  have hstart : (wordTiming events [] wi).1 =
      ((List.range wi).map
        (fun j => estimateWordDuration (events.getD j default).phonemes)).sum := by
    rw [wordTiming]
    simp only [List.find?_nil, List.getLast?_nil]
    congr 1
    apply List.map_congr_left
    intro j hj
    rw [if_pos (lt_trans (List.mem_range.mp hj) hwi)]
  refine ⟨hstart, ?_⟩
  have hmemc : ∃ f ∈ wordContribution events [] wi, f.timeMs = (wordTiming events [] wi).1 := by
    rw [wordContribution]
    obtain ⟨p, ps, hps⟩ := List.exists_cons_of_ne_nil hph
    simp only [hps]
    rw [if_neg (by simp)]
    rw [rebuildWordFrames_cons]
    exact ⟨_, List.mem_cons_self _ _, rfl⟩
  obtain ⟨f, hfmem, hft⟩ := hmemc
  refine ⟨f, ?_, by rw [hft, hstart]⟩
  rw [rebuildTimeline, mem_sortFrames]
  exact List.mem_flatten.mpr
    ⟨wordContribution events [] wi,
     List.mem_map_of_mem _ (List.mem_range.mpr hwi), hfmem⟩

/-- Witness for C5: a three-word segment (one word with no phonemes) with an
empty boundary log; the third word's start is the sum of the estimates of
the first two. -/
theorem C5_witness :
    (wordTiming
        [{ word := "go", phonemes := ["G", "OW"], charStart := 0, charEnd := 2 },
         { word := "9", phonemes := [], charStart := 3, charEnd := 4 },
         { word := "on", phonemes := ["AA", "N"], charStart := 5, charEnd := 7 }] [] 2).1 =
      ((List.range 2).map
        (fun j => estimateWordDuration
          (([{ word := "go", phonemes := ["G", "OW"], charStart := 0, charEnd := 2 },
             { word := "9", phonemes := [], charStart := 3, charEnd := 4 },
             { word := "on", phonemes := ["AA", "N"], charStart := 5, charEnd := 7 }]
              : List WordEvent).getD j default).phonemes)).sum ∧
    ∃ f ∈ rebuildTimeline
        [{ word := "go", phonemes := ["G", "OW"], charStart := 0, charEnd := 2 },
         { word := "9", phonemes := [], charStart := 3, charEnd := 4 },
         { word := "on", phonemes := ["AA", "N"], charStart := 5, charEnd := 7 }] [],
      f.timeMs =
        ((List.range 2).map
          (fun j => estimateWordDuration
            (([{ word := "go", phonemes := ["G", "OW"], charStart := 0, charEnd := 2 },
               { word := "9", phonemes := [], charStart := 3, charEnd := 4 },
               { word := "on", phonemes := ["AA", "N"], charStart := 5, charEnd := 7 }]
                : List WordEvent).getD j default).phonemes)).sum :=
  C5_estimates_from_zero _ 2 (by with_unfolding_all decide) (by with_unfolding_all decide)

-- ===================================================================
-- § Claim C8
-- ===================================================================

lemma advanceLoop_to_last (tl : List VisemeKeyframe) (elapsedMs : ℚ)
    (hall : ∀ j, j < tl.length → (tl.getD j default).timeMs ≤ elapsedMs) :
    ∀ fuel idx, idx < tl.length → tl.length ≤ idx + 1 + fuel →
      advanceLoop tl elapsedMs fuel idx = tl.length - 1
  | 0, idx, hidx, hfuel => by
    rw [advanceLoop]
    omega
  | fuel + 1, idx, hidx, hfuel => by
    rw [advanceLoop]
    by_cases h : idx < tl.length - 1
    · rw [if_pos ⟨h, hall (idx + 1) (by omega)⟩]
      exact advanceLoop_to_last tl elapsedMs hall fuel (idx + 1) (by omega) (by omega)
    · rw [if_neg (fun hc => h hc.1)]
      omega

/-- C8: once the elapsed time is at or past the last keyframe's timeMs, the
per-tick update parks the cursor on the final keyframe and issues an
applyBlendedViseme call whose shape pair is the final keyframe's shape for
both slots (blend factor 0): the tick keeps applying the final keyframe's
shape (modulated only by the usual amplitude envelope) and does not fall
back to the no-frame silence path or switch shapes. -/
theorem C8_holds_final_keyframe (tl : List VisemeKeyframe) (idx0 : ℕ)
    (elapsedMs : ℚ) (hne : tl ≠ []) (hidx : idx0 < tl.length)
    (hsorted : List.Pairwise (fun a b => a.timeMs ≤ b.timeMs) tl)
    (hpast : (tl.getLast hne).timeMs ≤ elapsedMs) :
    ∃ amplitude, updateLipSyncAction tl idx0 elapsedMs =
      TickAction.applyViseme (tl.getLast hne).shapeKey (tl.getLast hne).shapeKey
        0 amplitude := by
  have hlen : 0 < tl.length := List.length_pos.mpr hne
  have hlastD : tl.getD (tl.length - 1) default = tl.getLast hne := by
    rw [List.getLast_eq_getElem]
    simp [List.getD_eq_getElem?_getD, List.getElem?_eq_getElem (by omega : tl.length - 1 < tl.length)]
  have hall : ∀ j, j < tl.length → (tl.getD j default).timeMs ≤ elapsedMs := by
    intro j hj
    have hgetD : tl.getD j default = tl.get ⟨j, hj⟩ := by
      simp [List.getD_eq_getElem?_getD, List.getElem?_eq_getElem hj]
    by_cases hj1 : j = tl.length - 1
    · rw [hgetD]
      subst hj1
      have : tl.get ⟨tl.length - 1, hj⟩ = tl.getLast hne := by
        rw [List.getLast_eq_getElem]
        simp
      rw [this]
      exact hpast
    · have hlt : j < tl.length - 1 := by omega
      have hrel := (List.pairwise_iff_get.mp hsorted) ⟨j, hj⟩
        ⟨tl.length - 1, by omega⟩ hlt
      have hlast_get : tl.get ⟨tl.length - 1, by omega⟩ = tl.getLast hne := by
        rw [List.getLast_eq_getElem]
        simp
      rw [hgetD]
      calc (tl.get ⟨j, hj⟩).timeMs
          ≤ (tl.get ⟨tl.length - 1, by omega⟩).timeMs := hrel
        _ = (tl.getLast hne).timeMs := by rw [hlast_get]
        _ ≤ elapsedMs := hpast
  have hadv : advanceIdx tl elapsedMs idx0 = tl.length - 1 :=
    advanceLoop_to_last tl elapsedMs hall tl.length idx0 hidx (by omega)
  rw [updateLipSyncAction, hadv]
  rw [if_pos (by omega : tl.length - 1 < tl.length), hlastD]
  have hfalse : (tl.length - 1 + 1 < tl.length) = False :=
    eq_false (by omega)
  simp only [hfalse, and_false, if_false]
  exact ⟨_, rfl⟩

/-- Witness for C8: a two-keyframe timeline with the elapsed time past the
end of the final keyframe. -/
theorem C8_witness :
    ∃ amplitude,
      updateLipSyncAction
        [{ timeMs := 0, shapeKey := "AA", durationMs := 80 },
         { timeMs := 80, shapeKey := "MM", durationMs := 70 }] 0 200 =
      TickAction.applyViseme
        (([{ timeMs := 0, shapeKey := "AA", durationMs := 80 },
           { timeMs := 80, shapeKey := "MM", durationMs := 70 }]
            : List VisemeKeyframe).getLast (by simp)).shapeKey
        (([{ timeMs := 0, shapeKey := "AA", durationMs := 80 },
           { timeMs := 80, shapeKey := "MM", durationMs := 70 }]
            : List VisemeKeyframe).getLast (by simp)).shapeKey
        0 amplitude :=
  C8_holds_final_keyframe _ 0 200 (by simp) (by simp)
    (by with_unfolding_all decide) (by with_unfolding_all decide)

end Avatar
